import Mathlib

/-!
Shallow embedding of the fault-plane / point-source generation core of
`src/wasp/fault_plane.py`, together with theorems checking the
natural-language specification against it.

Modelling conventions:
* Python floats are idealized as real numbers (`ℝ`); `np.sin`, `np.cos`,
  `np.sqrt` become `Real.sin`, `Real.cos`, `Real.sqrt`.
* Python `int(x)` truncates toward zero; it is modelled by `pyInt`.
* Python `x // y` on floats is `⌊x / y⌋`.
* A Python exception that aborts a function is modelled by `Option`
  (`none` = the call raises, no value is produced) or by `Except PSError`
  when the kind of exception matters.
* Dictionaries with a fixed key set are modelled as structures.
-/

namespace FaultPlane

noncomputable section

/-- Python `int(x)` applied to a float: truncation toward zero. -/
def pyInt (x : ℝ) : ℤ := if 0 ≤ x then ⌊x⌋ else ⌈x⌉

/-- First index `j`, scanning `j = s, s+1, …, s+fuel-1`, satisfying `p`. -/
def firstIdxAux (p : ℕ → Prop) [DecidablePred p] : ℕ → ℕ → Option ℕ
  | _, 0 => none
  | s, fuel + 1 => if p s then some s else firstIdxAux p (s + 1) fuel

/-- The rise-time record (`rise_time` dictionary: `min_rise`, `delta_rise`,
`windows`). -/
structure RiseTime where
  min_rise : ℝ
  delta_rise : ℝ
  windows : ℤ

/-- The fault-dimension record produced by `__subfaults_properties`. -/
structure FaultDims where
  delay_segment : ℝ
  delta_strike : ℝ
  delta_dip : ℝ
  stk_subfaults : ℤ
  dip_subfaults : ℤ

/-- The nodal-plane record produced by `__plane_tensor_def`. -/
structure PlaneTensor where
  strike : ℝ
  dip : ℝ
  rake : ℝ
  rupture_vel : ℝ

/-- The point-source sub-grid record produced by `__point_sources_general`. -/
structure PointSourcesGeneral where
  strike_ps : ℤ
  dip_ps : ℤ
  dx : ℝ
  dy : ℝ

/-- The hypocenter-location record produced by `__epicenter_location`. -/
structure HypLocation where
  hyp_stk : ℤ
  hyp_dip : ℤ

/-- Moment-tensor information consumed by the core (fields of the
`tensor_info` dictionary that the embedded functions read; the
`date_origin` timestamp is flattened to the numeric parts the legacy
writer prints). -/
structure TensorInfo where
  time_shift : ℝ
  depth : ℝ
  moment_mag : ℝ
  lat : ℝ
  lon : ℝ
  centroid_lat : ℝ
  centroid_lon : ℝ
  year : ℝ
  month : ℝ
  julday : ℝ
  hour : ℝ

/-- `__lat_lon`: project an (along-strike, along-dip) offset on the dipping
plane to geographic coordinates. -/
def lat_lon (strike dip x y lat0 lon0 : ℝ) : ℝ × ℝ :=
  let deg2rad := Real.pi / 180
  let cos_stk := Real.cos (strike * deg2rad)
  let sin_stk := Real.sin (strike * deg2rad)
  let cos_dip := Real.cos (dip * deg2rad)
  let degree : ℝ := 111.12
  let lat_ref := lat0 + (x * cos_stk - y * cos_dip * sin_stk) / degree
  let lon_ref := lon0 + (x * sin_stk + y * cos_dip * cos_stk) / degree /
    Real.cos (lat0 * deg2rad)
  (lat_ref, lon_ref)

/-- `__default_vel_of_eq`: default rupture velocity from depth and the
slow-earthquake (Duputel) criterion. -/
def default_vel_of_eq (tensor_info : TensorInfo) : ℝ :=
  let time_shift := tensor_info.time_shift
  let moment_mag := tensor_info.moment_mag
  let depth := tensor_info.depth
  let default_vel : ℝ := 2.5
  let default_vel := if depth > 100 then 3.0 else default_vel
  let default_vel := if depth > 300 then 3.6 else default_vel
  let default_vel :=
    if time_shift / (1.2 * (10 : ℝ) ^ (-8 : ℤ) * moment_mag ^ ((1 : ℝ) / 3)) > 3
    then 1.5 else default_vel
  default_vel

/-- `_point_sources_def`: number of point sources per subfault and their
spacing.  The source reads `delta_rise` from the rise-time record and
`delta_strike`/`delta_dip` from the (two-key) subfault record. -/
def point_sources_def (rise_time_param : RiseTime) (rupture_vel : ℝ)
    (delta_strike delta_dip : ℝ) : PointSourcesGeneral :=
  let t1 := rise_time_param.delta_rise
  let delta := t1 * rupture_vel
  let strike_ps := pyInt (delta_strike / delta) + 1
  let dip_ps := min (pyInt (delta_dip / delta) + 1) 17
  let strike_ps := if strike_ps % 2 = 0 then strike_ps + 1 else strike_ps
  let dip_ps := if dip_ps % 2 = 0 then dip_ps + 1 else dip_ps
  let dx := delta_strike / (strike_ps : ℝ)
  let dy := delta_dip / (dip_ps : ℝ)
  ⟨strike_ps, dip_ps, dx, dy⟩

/-- `__rise_time_parameters`: rise-time information from the time shift,
subfault dimensions, and the data types used. -/
def rise_time_parameters (tensor_info : TensorInfo)
    (fault_dimensions : FaultDims) (data_type : List String) : RiseTime :=
  let delta_strike := fault_dimensions.delta_strike
  let delta_dip := fault_dimensions.delta_dip
  let wd : ℤ × ℝ :=
    if tensor_info.time_shift ≤ 10 then
      (pyInt (1.5 * max delta_strike delta_dip / 2), 1.0)
    else if tensor_info.time_shift ≤ 24 then
      (pyInt (1.5 * max delta_strike delta_dip / 4), 2.0)
    else if tensor_info.time_shift ≥ 48 then
      (pyInt (1.5 * max delta_strike delta_dip / 8), 4.0)
    else
      (pyInt (1.5 * max delta_strike delta_dip * 6 / tensor_info.time_shift),
        tensor_info.time_shift / 12)
  let windows := wd.1
  let delta_rise := wd.2
  let windows :=
    if "tele_body" ∈ data_type then
      max (pyInt (1.5 * max delta_strike delta_dip / 3)) windows
    else windows
  let delta_rise := if "tele_body" ∈ data_type then min 1.5 delta_rise else delta_rise
  let windows :=
    if tensor_info.depth > 200 then pyInt (1.5 * max delta_strike delta_dip / 2)
    else windows
  let delta_rise := if tensor_info.depth > 200 then 1.0 else delta_rise
  let min_rise := delta_rise
  let windows := windows + 2
  ⟨min_rise, delta_rise, windows⟩

/-- `__fault_plane_properties`: dimensions of the fault plane and of the
subfault grid.  The `none` branch models the crash of the original code
when `max_width * max_length / 225` is negative (`np.sqrt` yields NaN and
the later `int()` conversion raises `ValueError`). -/
def fault_plane_properties (eq_time : ℝ) (tensor_info : TensorInfo)
    (plane_info : PlaneTensor) (water_level : ℝ) : Option FaultDims :=
  let dip := plane_info.dip
  let default_vel := plane_info.rupture_vel
  let depth := tensor_info.depth
  let dist_hypo_surface :=
    max (depth - water_level) (0.8 * depth) / Real.sin (dip * (Real.pi / 180))
  let max_length := default_vel * eq_time
  let max_width := min (min 300 max_length) (2 * dist_hypo_surface)
  let max_width := max max_width 30
  if max_width * max_length / 225 < 0 then none else
  let size0 := Real.sqrt (max_width * max_length / 225)
  let delta_strike := max size0 1.0
  let delta_dip := max size0 1.0
  let stk_subfaults := min (pyInt (max_length / delta_strike)) 45
  let stk_subfaults := if stk_subfaults % 2 = 0 then stk_subfaults + 1 else stk_subfaults
  let max_length := 1.2 * max_length
  let delta_strike := max_length / (stk_subfaults : ℝ)
  let dip_subfaults := min (max (pyInt (max_width / delta_dip)) 3) 15
  let dip_subfaults := if dip_subfaults % 2 = 0 then dip_subfaults + 1 else dip_subfaults
  let delta_dip :=
    if dist_hypo_surface < delta_dip then
      max (max_width / (dip_subfaults : ℝ)) (1.9 * dist_hypo_surface)
    else 0.99 * max_width / (dip_subfaults : ℝ)
  some ⟨0, delta_strike, delta_dip, stk_subfaults, dip_subfaults⟩

/-- Distance from the hypocenter to the surface along dip
(`surface_dist` in `__hypocenter_location2`). -/
def hypoSurfaceDist (plane_info : PlaneTensor) (tensor_info : TensorInfo)
    (water_level : ℝ) : ℝ :=
  max (tensor_info.depth - water_level) (0.8 * tensor_info.depth) /
    Real.sin (plane_info.dip * (Real.pi / 180))

/-- The condition scanned for when relocating `hyp_dip` toward the
surface (`delta_dip * (j + 0.5) > 1.01 * surface_dist`). -/
def hypDipScanProp (fault_dimensions : FaultDims) (sd : ℝ) (j : ℕ) : Prop :=
  fault_dimensions.delta_dip * ((j : ℝ) + 0.5) > 1.01 * sd

instance (fault_dimensions : FaultDims) (sd : ℝ) :
    DecidablePred (hypDipScanProp fault_dimensions sd) := fun _ =>
  Real.decidableLT _ _

/-- `__hypocenter_location2`: subfault coordinates of the hypocenter.
The 2×2 direction-cosine matrix is inverted in closed form; the `none`
branch models `np.linalg.inv` raising `LinAlgError` on a singular matrix.
The scan replacing the default `hyp_dip` keeps the original `for j in
range(hyp_dip): if …: break; hyp_dip = j` semantics: the first `j` that
satisfies the condition, or the last scanned index if none does. -/
def hypocenter_location2 (plane_info : PlaneTensor) (fault_dimensions : FaultDims)
    (tensor_info : TensorInfo) (water_level : ℝ) (rise_time : RiseTime) :
    Option HypLocation :=
  let dip := plane_info.dip
  let strike := plane_info.strike
  let deg2rad := Real.pi / 180
  let degree : ℝ := 111.19
  let event_lat := tensor_info.lat
  let event_lon := tensor_info.lon
  let depth := tensor_info.depth
  let centroid_lat := tensor_info.centroid_lat
  let centroid_lon := tensor_info.centroid_lon
  let stk_subfaults := fault_dimensions.stk_subfaults
  let dip_subfaults := fault_dimensions.dip_subfaults
  let delta_strike := fault_dimensions.delta_strike
  let delta_dip := fault_dimensions.delta_dip
  let rupture_vel := plane_info.rupture_vel
  let subfaults2 := point_sources_def rise_time rupture_vel delta_strike delta_dip
  let strike_ps := subfaults2.strike_ps
  let dip_ps := subfaults2.dip_ps
  let cos_stk := Real.cos (strike * deg2rad)
  let sin_stk := Real.sin (strike * deg2rad)
  let cos_dip := Real.cos (dip * deg2rad)
  let m11 := cos_stk / degree
  let m12 := -cos_dip * sin_stk / degree
  let m21 := sin_stk / (degree * Real.cos (event_lat * deg2rad))
  let m22 := cos_dip * cos_stk / (degree * Real.cos (event_lat * deg2rad))
  let det := m11 * m22 - m12 * m21
  if det = 0 then none else
  let v1 := centroid_lat - event_lat
  let v2 := centroid_lon - event_lon
  let x := (m22 * v1 - m12 * v2) / det
  let y := (-m21 * v1 + m11 * v2) / det
  let hyp_stk := ⌊-x / delta_strike⌋ + pyInt ((stk_subfaults : ℝ) / 2.0) + 1
  let hyp_stk := max 1 (min stk_subfaults hyp_stk)
  let surface_dist := hypoSurfaceDist plane_info tensor_info water_level
  let hyp_dip0 := pyInt ((dip_subfaults : ℝ) / 2.0) + 1
  let hyp_dip : ℤ :=
    if delta_dip * (dip_subfaults : ℝ) / 2.0 > surface_dist then
      (((firstIdxAux (hypDipScanProp fault_dimensions surface_dist)
          0 hyp_dip0.toNat).getD (hyp_dip0.toNat - 1) : ℕ) : ℤ)
    else hyp_dip0
  let hyp_stk := if stk_subfaults > 1 then hyp_stk else 1
  let hyp_dip := if dip_subfaults > 1 then hyp_dip else 1
  let nx_hyp := pyInt ((strike_ps : ℝ) / 2.0 + 0.51)
  let ny_hyp := pyInt ((dip_ps : ℝ) / 2.0 + 0.51)
  some ⟨hyp_stk, hyp_dip⟩

/-- A 1-D layered velocity model (`velmodel` dictionary). -/
structure VelModel where
  p_vel : List ℝ
  s_vel : List ℝ
  dens : List ℝ
  thick : List ℝ

/-- The default 13-layer velocity table hardcoded in `shear_modulous`. -/
def default_velmodel : VelModel where
  p_vel := [5.800, 6.800, 8.080, 8.594, 8.732, 8.871, 9.219, 9.561, 9.902,
    10.073, 10.212, 10.791, 10.869]
  s_vel := [3.200, 3.900, 4.473, 4.657, 4.707, 4.757, 4.981, 5.176, 5.370,
    5.467, 5.543, 5.982, 6.056]
  dens := [2.600, 2.900, 3.3754, 3.4465, 3.4895, 3.5325, 3.7448, 3.8288,
    3.9128, 3.9548, 3.9840, 4.3886, 4.4043]
  thick := [12.000, 9.400, 196.000, 36.000, 108.00, 36.000, 33.333, 100.00,
    33.333, 33.333, 70.000, 25.250, 0.0]

/-- Cumulative layer boundary depths (`cumul_depth` in `__source_layer`). -/
def cumulDepth (thick : List ℝ) (j : ℕ) : ℝ := ((thick.take j).sum)

/-- `__source_layer`: index of the first layer whose boundary depths bracket
the source depth.  `none` models the `UnboundLocalError` crash of the
original code when no layer matches. -/
def source_layer (thick : List ℝ) (source_depth : ℝ) : Option ℕ :=
  firstIdxAux
    (fun j => cumulDepth thick j ≤ source_depth ∧ source_depth ≤ cumulDepth thick (j + 1))
    0 thick.length

/-- One point source: the 7-tuple stored per grid cell by
`point_sources_param`. -/
structure PointSrc where
  lat : ℝ
  lon : ℝ
  dep : ℝ
  distance : ℝ
  t1 : ℝ
  dist : ℝ
  az : ℝ

/-- One segment's dense point-source array (`np.zeros((dip_subfaults,
stk_subfaults, dip_ps, strike_ps, 7))` filled cell by cell): the shape
together with the cell contents. -/
structure PSArray where
  nDip : ℕ
  nStk : ℕ
  dipPs : ℕ
  strikePs : ℕ
  val : ℕ → ℕ → ℕ → ℕ → PointSrc

/-- Map in the `Option` monad, stopping at the first failure (models a loop
whose body may raise). -/
def mapO (f : α → Option β) : List α → Option (List β)
  | [] => some []
  | a :: l =>
    match f a with
    | none => none
    | some b =>
      match mapO f l with
      | none => none
      | some bs => some (b :: bs)

/-- Per-segment body of the `shear_modulous` loops: the shear modulus grid
over (dip, strike) subfault indices.  The guard models the crash of the
original code when `__source_layer` fails for some subfault. -/
def shear_seg (vm : VelModel) (ps : PSArray) : Option (ℕ → ℕ → ℝ) :=
  if (∀ i < ps.nDip, ∀ j < ps.nStk,
      (source_layer vm.thick
        ((ps.val i j (ps.dipPs / 2) (ps.strikePs / 2)).dep)).isSome) then
    some (fun i j =>
      match source_layer vm.thick
          ((ps.val i j (ps.dipPs / 2) (ps.strikePs / 2)).dep) with
      | some l => (vm.s_vel.getD l 0) ^ 2 * (vm.dens.getD l 0) * 10 ^ 10
      | none => 0)
  else none

/-- `shear_modulous`: one shear-modulus grid per segment. -/
def shear_modulous (point_sources : List PSArray) (velmodel : Option VelModel) :
    Option (List (ℕ → ℕ → ℝ)) :=
  let vm := velmodel.getD default_velmodel
  mapO (shear_seg vm) point_sources

/-- Error kinds of `point_sources_param`: the explicit geometry check
(`raise Exception("Point source is above the ground!")`), and the crashes
from unpacking an unresolved (still `[]`) reference-coordinate entry or
from indexing outside the segment list. -/
inductive PSError
  | aboveGround
  | badFrame
  deriving DecidableEq

/-- One fault segment as read by `point_sources_param` from the
`segments_data.json` "segments" entries. -/
structure Segment where
  strike : ℝ
  dip : ℝ
  delta_strike : ℝ
  delta_dip : ℝ
  rupture_vel : ℝ
  stk_subfaults : ℕ
  dip_subfaults : ℕ
  hyp_stk : ℝ
  hyp_dip : ℝ
  delay_segment : ℝ
  hypocenter : Option (ℝ × ℝ × ℝ)

/-- A connection record: a subfault of `segment2` is declared coincident
with a subfault of `segment1` (segment numbers are 1-based). -/
structure Connection where
  segment1 : ℕ
  segment2 : ℕ
  segment1_subfault : ℝ × ℝ
  segment2_subfault : ℝ × ℝ

/-- One resolved reference-coordinate entry
`[lat0, lon0, depth0, x_ref, y_ref]`. -/
structure Frame where
  lat0 : ℝ
  lon0 : ℝ
  depth0 : ℝ
  x_ref : ℝ
  y_ref : ℝ

/-- The values `point_sources_param` derives once, from `segments[0]` and
the rise-time record, before any per-segment work. -/
structure GenCtx where
  event_lat : ℝ
  event_lon : ℝ
  depth : ℝ
  delta_strike : ℝ
  delta_dip : ℝ
  rupture_vel : ℝ
  strike_ps : ℤ
  dip_ps : ℤ
  dx : ℝ
  dy : ℝ
  nx : ℤ
  ny : ℤ

/-- Lines 119-132 of the source: spacings, rupture velocity and
point-source sub-grid all read from `segments[0]`. -/
def mkCtx (s0 : Segment) (tensor_info : TensorInfo) (rise_time : RiseTime) :
    GenCtx :=
  let delta_strike := s0.delta_strike
  let delta_dip := s0.delta_dip
  let rupture_vel := s0.rupture_vel
  let subfaults2 := point_sources_def rise_time rupture_vel delta_strike delta_dip
  let strike_ps := subfaults2.strike_ps
  let dip_ps := subfaults2.dip_ps
  let dx := subfaults2.dx
  let dy := subfaults2.dy
  let nx := pyInt ((strike_ps : ℝ) / 2.0 + 0.51)
  let ny := pyInt ((dip_ps : ℝ) / 2.0 + 0.51)
  ⟨tensor_info.lat, tensor_info.lon, tensor_info.depth, delta_strike, delta_dip,
    rupture_vel, strike_ps, dip_ps, dx, dy, nx, ny⟩

/-- Reference-coordinate entry for one (index, segment) pair before
connection resolution: segment 0 anchors at the epicenter (using
`segments[0]`'s hypocenter subfault), a segment with an explicit
`hypocenter` entry anchors there, and every other entry is the unresolved
`[]` placeholder (`none`). -/
def initFrame (ctx : GenCtx) (s0 : Segment) (p : ℕ × Segment) : Option Frame :=
  match p.2.hypocenter with
  | some h =>
    some ⟨h.1, h.2.1, h.2.2,
      p.2.hyp_stk * ctx.delta_strike + (ctx.nx : ℝ) * ctx.dx,
      p.2.hyp_dip * ctx.delta_dip + (ctx.ny : ℝ) * ctx.dy⟩
  | none =>
    if p.1 = 0 then
      some ⟨ctx.event_lat, ctx.event_lon, ctx.depth,
        s0.hyp_stk * ctx.delta_strike + (ctx.nx : ℝ) * ctx.dx,
        s0.hyp_dip * ctx.delta_dip + (ctx.ny : ℝ) * ctx.dy⟩
    else none

/-- Reference coordinates of all segments before connection resolution. -/
def initFrames (ctx : GenCtx) (s0 : Segment) (segments : List Segment) :
    List (Option Frame) :=
  segments.enum.map (initFrame ctx s0)

/-- Per-segment hypocenter list: the event hypocenter unless the segment
carries an explicit override. -/
def hypocentersOf (ctx : GenCtx) (segments : List Segment) : List (ℝ × ℝ × ℝ) :=
  segments.map fun seg => seg.hypocenter.getD (ctx.event_lat, ctx.event_lon, ctx.depth)

/-- Resolution of one connection record (lines 164-182 of the source).
Python's negative-index wrap-around for nonpositive segment numbers is not
modelled; segment numbers are 1-based in the data format. -/
def applyConn (ctx : GenCtx) (segments : List Segment)
    (refs : List (Option Frame)) (connection : Connection) :
    Except PSError (List (Option Frame)) :=
  match refs.getD (connection.segment1 - 1) none with
  | none => .error .badFrame
  | some f =>
    match segments[connection.segment1 - 1]? with
    | none => .error .badFrame
    | some first_segment =>
      let strike := first_segment.strike
      let dip := first_segment.dip
      let n1_stk := connection.segment1_subfault.1
      let n1_dip := connection.segment1_subfault.2
      let x := n1_stk * ctx.delta_strike - f.x_ref + ctx.dx * 0
      let y := n1_dip * ctx.delta_dip - f.y_ref + ctx.dy * 0
      let dep_ref := y * Real.sin (dip * (Real.pi / 180)) + f.depth0
      let ll := lat_lon strike dip x y f.lat0 f.lon0
      let n2_stk := connection.segment2_subfault.1
      let n2_dip := connection.segment2_subfault.2
      if connection.segment2 - 1 < refs.length then
        .ok (refs.set (connection.segment2 - 1)
          (some ⟨ll.1, ll.2, dep_ref, n2_stk * ctx.delta_strike,
            n2_dip * ctx.delta_dip⟩))
      else .error .badFrame

/-- Fold of `applyConn` over the connection list, in order. -/
def resolveConns (ctx : GenCtx) (segments : List Segment) :
    List Connection → List (Option Frame) → Except PSError (List (Option Frame))
  | [], refs => .ok refs
  | c :: cs, refs =>
    match applyConn ctx segments refs c with
    | .error e => .error e
    | .ok refs2 => resolveConns ctx segments cs refs2

/-- Depth of the point source at cell `(k2, j2, k1, j1)` (lines 221-222 of
the source): `y * sin(dip) + depth0` with `y` the along-dip offset from the
segment's reference origin. -/
def cellDep (ctx : GenCtx) (seg : Segment) (f : Frame) (k2 k1 : ℕ) : ℝ :=
  let y := ((k2 : ℝ) + 1) * ctx.delta_dip + ((k1 : ℝ) + 1) * ctx.dy - f.y_ref
  y * Real.sin (seg.dip * (Real.pi / 180)) + f.depth0

/-- Map in the `Except` monad, stopping at the first raised error (models a
loop whose body may raise). -/
def mapE (f : α → Except ε β) : List α → Except ε (List β)
  | [] => .ok []
  | a :: l =>
    match f a with
    | .error e => .error e
    | .ok b =>
      match mapE f l with
      | .error e => .error e
      | .ok bs => .ok (b :: bs)

/-- The body of the four nested loops of `point_sources_param`: one cell's
7-tuple, or the geometry error when its depth is under the 0.1 km floor. -/
def cellPS (distazbaz : ℝ → ℝ → ℝ → ℝ → ℝ × ℝ × ℝ) (ctx : GenCtx)
    (seg : Segment) (f : Frame) (hypo : ℝ × ℝ × ℝ) (k2 j2 k1 j1 : ℕ) :
    Except PSError PointSrc :=
  let x_center := seg.hyp_stk * ctx.delta_strike + (ctx.nx : ℝ) * ctx.dx
  let y_center := seg.hyp_dip * ctx.delta_dip + (ctx.ny : ℝ) * ctx.dy
  let x := ((j2 : ℝ) + 1) * ctx.delta_strike + ((j1 : ℝ) + 1) * ctx.dx - x_center
  let y := ((k2 : ℝ) + 1) * ctx.delta_dip + ((k1 : ℝ) + 1) * ctx.dy - y_center
  let distance := Real.sqrt (x ^ 2 + y ^ 2)
  let t1 := distance / ctx.rupture_vel
  let x2 := ((j2 : ℝ) + 1) * ctx.delta_strike + ((j1 : ℝ) + 1) * ctx.dx - f.x_ref
  let dep := cellDep ctx seg f k2 k1
  if dep < 0.1 then .error .aboveGround else
  let y2 := ((k2 : ℝ) + 1) * ctx.delta_dip + ((k1 : ℝ) + 1) * ctx.dy - f.y_ref
  let ll := lat_lon seg.strike seg.dip x2 y2 f.lat0 f.lon0
  let daz := distazbaz ll.1 ll.2 hypo.1 hypo.2.1
  .ok ⟨ll.1, ll.2, dep, distance, t1, daz.1, daz.2.1⟩

/-- One segment's dense cell array, via the four nested loops. -/
def segMatrix (distazbaz : ℝ → ℝ → ℝ → ℝ → ℝ × ℝ × ℝ) (ctx : GenCtx)
    (seg : Segment) (f : Frame) (hypo : ℝ × ℝ × ℝ) :
    Except PSError (List (List (List (List PointSrc)))) :=
  mapE (fun k2 =>
    mapE (fun j2 =>
      mapE (fun k1 =>
        mapE (fun j1 => cellPS distazbaz ctx seg f hypo k2 j2 k1 j1)
          (List.range ctx.strike_ps.toNat))
        (List.range ctx.dip_ps.toNat))
      (List.range seg.stk_subfaults))
    (List.range seg.dip_subfaults)

/-- `point_sources_param`: the full multi-segment point-source field
generator.  `distazbaz` is the external geodesy routine
`wasp.management._distazbaz` (distance, azimuth, back-azimuth), a module
that is not part of this repository's sources, passed as a parameter. -/
def point_sources_param (distazbaz : ℝ → ℝ → ℝ → ℝ → ℝ × ℝ × ℝ)
    (segments : List Segment) (tensor_info : TensorInfo) (rise_time : RiseTime)
    (connections : List Connection) :
    Except PSError (List (List (List (List (List PointSrc))))) :=
  match segments with
  | [] => .error .badFrame
  | s0 :: _ =>
    let ctx := mkCtx s0 tensor_info rise_time
    let refs := initFrames ctx s0 segments
    let hyps := hypocentersOf ctx segments
    match resolveConns ctx segments connections refs with
    | .error e => .error e
    | .ok refs2 =>
      mapE (fun t =>
        match t.2.1 with
        | none => .error .badFrame
        | some f => segMatrix distazbaz ctx t.1 f t.2.2)
        (segments.zip (refs2.zip hyps))

/-- Reference coordinates after connection resolution, as a standalone
function (phase one of `point_sources_param`). -/
def framesOf (segments : List Segment) (tensor_info : TensorInfo)
    (rise_time : RiseTime) (connections : List Connection) :
    Except PSError (List (Option Frame)) :=
  match segments with
  | [] => .error .badFrame
  | s0 :: _ =>
    let ctx := mkCtx s0 tensor_info rise_time
    resolveConns ctx segments connections (initFrames ctx s0 segments)

/-- Depth of the point source of cell `(k2, j2, k1, j1)` of segment `i`,
when that cell exists: the segment must exist, its reference frame must
have resolved, and the four indices must lie inside the loop ranges. -/
def cellDepth (segments : List Segment) (tensor_info : TensorInfo)
    (rise_time : RiseTime) (connections : List Connection)
    (i k2 j2 k1 j1 : ℕ) : Option ℝ :=
  match segments with
  | [] => none
  | s0 :: _ =>
    let ctx := mkCtx s0 tensor_info rise_time
    match framesOf segments tensor_info rise_time connections with
    | .error _ => none
    | .ok refs =>
      match segments[i]?, refs[i]? with
      | some seg, some (some f) =>
        if k2 < seg.dip_subfaults ∧ j2 < seg.stk_subfaults ∧
            k1 < ctx.dip_ps.toNat ∧ j1 < ctx.strike_ps.toNat then
          some (cellDep ctx seg f k2 k1)
        else none
      | _, _ => none

/-- The per-segment fields `point_sources_param` reads from every segment.
`delta_strike`, `delta_dip` and `rupture_vel` are not among them: the
generator reads those three only from `segments[0]`. -/
def UsedEq (s t : Segment) : Prop :=
  s.strike = t.strike ∧ s.dip = t.dip ∧ s.stk_subfaults = t.stk_subfaults ∧
  s.dip_subfaults = t.dip_subfaults ∧ s.hyp_stk = t.hyp_stk ∧
  s.hyp_dip = t.hyp_dip ∧ s.delay_segment = t.delay_segment ∧
  s.hypocenter = t.hypocenter

/-- One neighbour-connection record of the structured document, as rebuilt
by `event_mult_in_to_json`. -/
structure NeighbourDoc where
  connect_subfault : ℤ × ℤ
  neighbour : ℤ
  neighbour_connect_subfault : ℤ × ℤ

/-- One per-segment record of the structured document
(`segments_data.json`). -/
structure SegmentDoc where
  delay_segment : ℝ
  delta_strike : ℝ
  delta_dip : ℝ
  dip : ℝ
  strike : ℝ
  rake : ℝ
  rupture_vel : ℝ
  stk_subfaults : ℤ
  dip_subfaults : ℤ
  hyp_stk : ℤ
  hyp_dip : ℤ
  neighbours : List NeighbourDoc

/-- The structured document: per-segment records plus the rise-time
record. -/
structure SegmentsData where
  segments : List SegmentDoc
  rise_time : RiseTime

/-- `__save_plane_data`: the structured document for the single plane
(persistence to `segments_data.json` is outside the embedding; the value
written and returned is modelled). -/
def save_plane_data (plane_tensor : PlaneTensor) (subfaults : FaultDims)
    (epicenter_loc : HypLocation) (rise_time : RiseTime) : SegmentsData :=
  let segment_info : SegmentDoc :=
    { delay_segment := subfaults.delay_segment
      delta_strike := subfaults.delta_strike
      delta_dip := subfaults.delta_dip
      dip := plane_tensor.dip
      strike := plane_tensor.strike
      rake := plane_tensor.rake
      rupture_vel := plane_tensor.rupture_vel
      stk_subfaults := subfaults.stk_subfaults
      dip_subfaults := subfaults.dip_subfaults
      hyp_stk := epicenter_loc.hyp_stk
      hyp_dip := epicenter_loc.hyp_dip
      neighbours := [] }
  ⟨[segment_info], rise_time⟩

/-- `__write_event_mult_in`: the legacy fixed-layout text record
`Event_mult.in`, modelled as its grid of whitespace-separated numeric
tokens (Python's `"{}".format` of a float round-trips exactly, so a token
is idealized as the real number it denotes). -/
def write_event_mult_in (tensor_info : TensorInfo) (plane_tensor : PlaneTensor)
    (subfaults : FaultDims) (epicenter_loc : HypLocation) (rise_time : RiseTime) :
    List (List ℝ) :=
  [[tensor_info.year, tensor_info.month, tensor_info.julday, tensor_info.hour],
   [plane_tensor.strike, plane_tensor.dip, plane_tensor.rake,
     tensor_info.moment_mag * (10 : ℝ) ^ (-7 : ℤ)],
   [tensor_info.lat, tensor_info.lon, tensor_info.year, tensor_info.month,
     tensor_info.julday, tensor_info.hour],
   [0.2, 10, 0],
   [rise_time.min_rise, rise_time.delta_rise, (rise_time.windows : ℝ)],
   [plane_tensor.rupture_vel],
   [1, subfaults.delta_strike, subfaults.delta_dip],
   [1],
   [plane_tensor.dip, plane_tensor.strike, plane_tensor.rake, 1],
   [(subfaults.stk_subfaults : ℝ), (subfaults.dip_subfaults : ℝ), 0],
   [(epicenter_loc.hyp_stk : ℝ), (epicenter_loc.hyp_dip : ℝ), 1, tensor_info.depth]]

/-- Token at line `i`, column `j` of the legacy record
(`lines[i][j]` after `line.split()`). -/
def tok (lines : List (List ℝ)) (i j : ℕ) : ℝ := (lines.getD i []).getD j 0

/-- The per-segment parsing loop of `event_mult_in_to_json`: first segment
consumes 4 lines, later segments consume 6 (with a neighbour record). -/
def parseSegments (lines : List (List ℝ)) (rupt_vel delta_strike delta_dip : ℝ) :
    ℕ → ℕ → ℕ → List SegmentDoc
  | 0, _, _ => []
  | n + 1, i_segment, index0 =>
    let dip := tok lines (index0 + 1) 0
    let strike := tok lines (index0 + 1) 1
    let rake := tok lines (index0 + 1) 2
    let stk_subfaults := pyInt (tok lines (index0 + 2) 0)
    let dip_subfaults := pyInt (tok lines (index0 + 2) 1)
    let delay_segment := tok lines (index0 + 2) 2
    let hyp_stk := pyInt (tok lines (index0 + 3) 0)
    let hyp_dip := pyInt (tok lines (index0 + 3) 1)
    let dict1 : SegmentDoc :=
      { delay_segment := delay_segment
        delta_strike := delta_strike
        delta_dip := delta_dip
        dip := dip
        strike := strike
        rake := rake
        rupture_vel := rupt_vel
        stk_subfaults := stk_subfaults
        dip_subfaults := dip_subfaults
        hyp_stk := hyp_stk
        hyp_dip := hyp_dip
        neighbours := [] }
    if i_segment = 0 then
      dict1 ::
        parseSegments lines rupt_vel delta_strike delta_dip n (i_segment + 1) (index0 + 4)
    else
      let neighbour := pyInt (tok lines (index0 + 4) 0) - 1
      let stk_connect := pyInt (tok lines (index0 + 4) 2)
      let dip_connect := pyInt (tok lines (index0 + 4) 3)
      let stk_connect2 := pyInt (tok lines (index0 + 5) 0)
      let dip_connect2 := pyInt (tok lines (index0 + 5) 1)
      let dict2 : NeighbourDoc :=
        ⟨(stk_connect2, dip_connect2), neighbour, (stk_connect, dip_connect)⟩
      { dict1 with neighbours := [dict2] } ::
        parseSegments lines rupt_vel delta_strike delta_dip n (i_segment + 1) (index0 + 6)

/-- `event_mult_in_to_json`: rebuild the structured document from the
legacy record's token grid. -/
def event_mult_in_to_json (lines : List (List ℝ)) : SegmentsData :=
  let t1 := tok lines 4 0
  let t2 := tok lines 4 1
  let windows := pyInt (tok lines 4 2)
  let rise_time : RiseTime := ⟨t1, t2, windows⟩
  let rupt_vel := tok lines 5 0
  let delta_strike := tok lines 6 1
  let delta_dip := tok lines 6 2
  let n_segments := (pyInt (tok lines 6 0)).toNat
  let segments := parseSegments lines rupt_vel delta_strike delta_dip n_segments 0 7
  ⟨segments, rise_time⟩

end

section Theorems

theorem firstIdxAux_some {p : ℕ → Prop} [DecidablePred p] :
    ∀ s fuel j, firstIdxAux p s fuel = some j →
      p j ∧ s ≤ j ∧ j < s + fuel ∧ ∀ k, s ≤ k → k < j → ¬ p k := by
  intro s fuel
  induction fuel generalizing s with
  | zero => intro j h; simp [firstIdxAux] at h
  | succ n ih =>
    intro j h
    by_cases hp : p s
    · simp [firstIdxAux, hp] at h
      subst h
      exact ⟨hp, le_refl _, by omega, fun k hk1 hk2 => by omega⟩
    · simp [firstIdxAux, hp] at h
      obtain ⟨h1, h2, h3, h4⟩ := ih (s + 1) j h
      refine ⟨h1, by omega, by omega, fun k hk1 hk2 => ?_⟩
      rcases Nat.eq_or_lt_of_le hk1 with heq | hlt
      · exact heq ▸ hp
      · exact h4 k hlt hk2

theorem firstIdxAux_none {p : ℕ → Prop} [DecidablePred p] :
    ∀ s fuel, firstIdxAux p s fuel = none →
      ∀ k, s ≤ k → k < s + fuel → ¬ p k := by
  intro s fuel
  induction fuel generalizing s with
  | zero => intro _ k h1 h2; omega
  | succ n ih =>
    intro h k hk1 hk2
    by_cases hp : p s
    · simp [firstIdxAux, hp] at h
    · simp [firstIdxAux, hp] at h
      rcases Nat.eq_or_lt_of_le hk1 with heq | hlt
      · exact heq ▸ hp
      · exact ih (s + 1) h k hlt (by omega)

theorem firstIdxAux_isSome_of {p : ℕ → Prop} [DecidablePred p] :
    ∀ s fuel j, s ≤ j → j < s + fuel → p j → (firstIdxAux p s fuel).isSome := by
  intro s fuel
  induction fuel generalizing s with
  | zero => intro j h1 h2; omega
  | succ n ih =>
    intro j h1 h2 hp
    by_cases hps : p s
    · simp [firstIdxAux, hps]
    · have hsj : s ≠ j := fun h => hps (h ▸ hp)
      simp only [firstIdxAux, hps, if_false]
      exact ih (s + 1) j (by omega) (by omega) hp

/-- Result of `int(x) % 2 == 0` forcing to the next odd integer
(`x = x + 1 if x % 2 == 0 else x`), as it appears several times in the source. -/
theorem odd_of_parity_bump (v : ℤ) : Odd (if v % 2 = 0 then v + 1 else v) := by
  by_cases h : v % 2 = 0
  · rw [if_pos h, Int.odd_iff]; omega
  · rw [if_neg h, Int.odd_iff]; omega

theorem pyInt_nonneg {x : ℝ} (hx : 0 ≤ x) : 0 ≤ pyInt x := by
  simp [pyInt, hx]
  exact Int.floor_nonneg.mpr hx

theorem pyInt_intCast (n : ℤ) : pyInt (n : ℝ) = n := by
  rcases le_or_lt 0 (n : ℝ) with h | h
  · simp [pyInt, h]
  · simp [pyInt, not_le.mpr h]

theorem mapO_get? {f : α → Option β} :
    ∀ {l : List α} {bs : List β}, mapO f l = some bs →
      ∀ (i : ℕ) (a : α), l[i]? = some a → ∃ b, f a = some b ∧ bs[i]? = some b := by
  intro l
  induction l with
  | nil => intro bs h i a ha; simp at ha
  | cons x xs ih =>
    intro bs h i a ha
    rcases hx : f x with _ | b
    · simp [mapO, hx] at h
    · rcases hxs : mapO f xs with _ | bs'
      · simp [mapO, hx, hxs] at h
      · simp [mapO, hx, hxs] at h
        subst h
        cases i with
        | zero => simp at ha; subst ha; exact ⟨b, hx, by simp⟩
        | succ n =>
          simp at ha
          obtain ⟨b', hb1, hb2⟩ := ih hxs n a ha
          exact ⟨b', hb1, by simpa using hb2⟩

theorem mapO_isSome_of_forall {f : α → Option β} :
    ∀ {l : List α}, (∀ a ∈ l, ∃ b, f a = some b) → ∃ bs, mapO f l = some bs := by
  intro l
  induction l with
  | nil => intro _; exact ⟨[], rfl⟩
  | cons x xs ih =>
    intro h
    obtain ⟨b, hb⟩ := h x (by simp)
    obtain ⟨bs, hbs⟩ := ih fun a ha => h a (by simp [ha])
    exact ⟨b :: bs, by simp [mapO, hb, hbs]⟩

theorem forceOdd_stk_bounds (v : ℤ) (h0 : 0 ≤ v) (h1 : v ≤ 45) :
    1 ≤ (if v % 2 = 0 then v + 1 else v) ∧ (if v % 2 = 0 then v + 1 else v) ≤ 45 := by
  split_ifs with h <;> omega

theorem forceOdd_dip_bounds (v : ℤ) (h0 : 3 ≤ v) (h1 : v ≤ 15) :
    3 ≤ (if v % 2 = 0 then v + 1 else v) ∧ (if v % 2 = 0 then v + 1 else v) ≤ 15 := by
  split_ifs with h <;> omega

/-- Shape lemma for `__fault_plane_properties`: whenever the planner
returns, its subfault counts are parity-bumped versions of clamped
integers in `[0,45]` and `[3,15]` respectively. -/
theorem fault_plane_properties_shape (eq_time : ℝ) (tensor_info : TensorInfo)
    (plane_info : PlaneTensor) (water_level : ℝ) (fd : FaultDims)
    (h : fault_plane_properties eq_time tensor_info plane_info water_level = some fd) :
    ∃ v w : ℤ, 0 ≤ v ∧ v ≤ 45 ∧ 3 ≤ w ∧ w ≤ 15 ∧
      fd.stk_subfaults = (if v % 2 = 0 then v + 1 else v) ∧
      fd.dip_subfaults = (if w % 2 = 0 then w + 1 else w) := by
  simp only [fault_plane_properties] at h
  split at h
  · exact absurd h (by simp)
  · rename_i hneg
    rw [Option.some_inj] at h
    subst h
    refine ⟨_, _, ?_, min_le_right _ _, le_min (le_max_right _ _) (by norm_num),
      min_le_right _ _, rfl, rfl⟩
    have hW : (30 : ℝ) ≤ max (min (min 300 (plane_info.rupture_vel * eq_time))
        (2 * (max (tensor_info.depth - water_level) (0.8 * tensor_info.depth) /
          Real.sin (plane_info.dip * (Real.pi / 180))))) 30 := le_max_right _ _
    have hML : 0 ≤ plane_info.rupture_vel * eq_time := by
      by_contra hML
      push_neg at hML
      exact hneg (div_neg_of_neg_of_pos
        (mul_neg_of_pos_of_neg (by linarith) hML) (by norm_num))
    refine le_min ?_ (by norm_num)
    exact pyInt_nonneg (div_nonneg hML
      (le_trans (by norm_num : (0 : ℝ) ≤ 1.0) (le_max_right _ _)))

/-- C2: for every tensor/plane input with dip in (0,90] and non-negative
depth and time_shift, whenever the fault-geometry planner returns, its
`stk_subfaults` and `dip_subfaults` are both odd, with
`stk_subfaults ∈ [1,45]` and `dip_subfaults ∈ [3,15]`. -/
theorem claim_c2_planner_counts (tensor_info : TensorInfo) (plane_info : PlaneTensor)
    (water_level : ℝ) (hdip0 : 0 < plane_info.dip) (hdip1 : plane_info.dip ≤ 90)
    (hdepth : 0 ≤ tensor_info.depth) (hts : 0 ≤ tensor_info.time_shift)
    (fd : FaultDims)
    (h : fault_plane_properties
      (2 * tensor_info.time_shift + 0.75 * tensor_info.time_shift)
      tensor_info plane_info water_level = some fd) :
    Odd fd.stk_subfaults ∧ 1 ≤ fd.stk_subfaults ∧ fd.stk_subfaults ≤ 45 ∧
      Odd fd.dip_subfaults ∧ 3 ≤ fd.dip_subfaults ∧ fd.dip_subfaults ≤ 15 := by
  obtain ⟨v, w, hv0, hv1, hw0, hw1, hs, hd⟩ :=
    fault_plane_properties_shape _ tensor_info plane_info water_level fd h
  obtain ⟨hb1, hb2⟩ := forceOdd_stk_bounds v hv0 hv1
  obtain ⟨hc1, hc2⟩ := forceOdd_dip_bounds w hw0 hw1
  exact ⟨hs ▸ odd_of_parity_bump v, hs ▸ hb1, hs ▸ hb2,
    hd ▸ odd_of_parity_bump w, hd ▸ hc1, hd ▸ hc2⟩

/-- Witness for C2 at a concrete input (`time_shift = 0`, `depth = 0`,
`dip = 90`, `rupture_vel = 2.5`, `water_level = 0`). -/
theorem claim_c2_planner_counts_witness :
    ∃ fd, fault_plane_properties (2 * (0 : ℝ) + 0.75 * 0)
        ⟨0, 0, 0, 0, 0, 0, 0, 0, 0, 0, 0⟩ ⟨0, 90, 0, 2.5⟩ 0 = some fd ∧
      (Odd fd.stk_subfaults ∧ 1 ≤ fd.stk_subfaults ∧ fd.stk_subfaults ≤ 45 ∧
        Odd fd.dip_subfaults ∧ 3 ≤ fd.dip_subfaults ∧ fd.dip_subfaults ≤ 15) := by
  obtain ⟨fd, hfd⟩ : ∃ fd, fault_plane_properties (2 * (0 : ℝ) + 0.75 * 0)
      ⟨0, 0, 0, 0, 0, 0, 0, 0, 0, 0, 0⟩ ⟨0, 90, 0, 2.5⟩ 0 = some fd := by
    simp only [fault_plane_properties]
    norm_num
  exact ⟨fd, hfd, claim_c2_planner_counts ⟨0, 0, 0, 0, 0, 0, 0, 0, 0, 0, 0⟩
    ⟨0, 90, 0, 2.5⟩ 0 (by norm_num) (by norm_num) le_rfl le_rfl fd hfd⟩

/-- C4: for every rise-time parameter set, positive rupture velocity and
positive subfault spacings, the point-source grid builder returns odd
`strike_ps` and `dip_ps` with `dip_ps ≤ 17`, computed by the truncation
formulas of the source, with `dx = delta_strike/strike_ps` and
`dy = delta_dip/dip_ps`. -/
theorem claim_c4_grid_builder (rise_time_param : RiseTime)
    (rupture_vel delta_strike delta_dip : ℝ) (hv : 0 < rupture_vel)
    (hs : 0 < delta_strike) (hd : 0 < delta_dip) :
    let ps := point_sources_def rise_time_param rupture_vel delta_strike delta_dip
    let delta := rise_time_param.delta_rise * rupture_vel
    Odd ps.strike_ps ∧ Odd ps.dip_ps ∧ ps.dip_ps ≤ 17 ∧
      ps.strike_ps =
        (let v := pyInt (delta_strike / delta) + 1
         if v % 2 = 0 then v + 1 else v) ∧
      ps.dip_ps =
        (let v := min (pyInt (delta_dip / delta) + 1) 17
         if v % 2 = 0 then v + 1 else v) ∧
      ps.dx = delta_strike / (ps.strike_ps : ℝ) ∧
      ps.dy = delta_dip / (ps.dip_ps : ℝ) := by
  intro ps delta
  refine ⟨odd_of_parity_bump _, odd_of_parity_bump _, ?_, rfl, rfl, rfl, rfl⟩
  have h17 : min (pyInt (delta_dip / delta) + 1) 17 ≤ 17 := min_le_right _ _
  by_cases h : (min (pyInt (delta_dip / delta) + 1) 17) % 2 = 0
  · show (if (min (pyInt (delta_dip / delta) + 1) 17) % 2 = 0 then
      min (pyInt (delta_dip / delta) + 1) 17 + 1 else
      min (pyInt (delta_dip / delta) + 1) 17) ≤ 17
    rw [if_pos h]; omega
  · show (if (min (pyInt (delta_dip / delta) + 1) 17) % 2 = 0 then
      min (pyInt (delta_dip / delta) + 1) 17 + 1 else
      min (pyInt (delta_dip / delta) + 1) 17) ≤ 17
    rw [if_neg h]; omega

/-- Witness for C4 at a concrete input
(`delta_rise = 1`, `rupture_vel = 5/2`, spacings `11/2` and `9/2`). -/
theorem claim_c4_grid_builder_witness :
    let ps := point_sources_def ⟨1, 1, 3⟩ (5 / 2) (11 / 2) (9 / 2)
    let delta := (⟨1, 1, 3⟩ : RiseTime).delta_rise * (5 / 2 : ℝ)
    Odd ps.strike_ps ∧ Odd ps.dip_ps ∧ ps.dip_ps ≤ 17 ∧
      ps.strike_ps =
        (let v := pyInt ((11 / 2 : ℝ) / delta) + 1
         if v % 2 = 0 then v + 1 else v) ∧
      ps.dip_ps =
        (let v := min (pyInt ((9 / 2 : ℝ) / delta) + 1) 17
         if v % 2 = 0 then v + 1 else v) ∧
      ps.dx = (11 / 2 : ℝ) / (ps.strike_ps : ℝ) ∧
      ps.dy = (9 / 2 : ℝ) / (ps.dip_ps : ℝ) :=
  claim_c4_grid_builder ⟨1, 1, 3⟩ (5 / 2) (11 / 2) (9 / 2)
    (by norm_num) (by norm_num) (by norm_num)

/-- C5: the default rupture velocity is 2.5 for depth ≤ 100, 3.0 for
100 < depth ≤ 300, 3.6 for depth > 300, and is overridden to 1.5 exactly
when the slow-earthquake ratio exceeds 3 (evaluated last, taking
precedence over the depth-based value). -/
theorem claim_c5_default_vel (tensor_info : TensorInfo)
    (hm : 0 < tensor_info.moment_mag) :
    (tensor_info.time_shift /
        (1.2 * (10 : ℝ) ^ (-8 : ℤ) * tensor_info.moment_mag ^ ((1 : ℝ) / 3)) > 3 →
      default_vel_of_eq tensor_info = 1.5) ∧
    (¬ tensor_info.time_shift /
        (1.2 * (10 : ℝ) ^ (-8 : ℤ) * tensor_info.moment_mag ^ ((1 : ℝ) / 3)) > 3 →
      (tensor_info.depth ≤ 100 → default_vel_of_eq tensor_info = 2.5) ∧
      (100 < tensor_info.depth → tensor_info.depth ≤ 300 →
        default_vel_of_eq tensor_info = 3.0) ∧
      (300 < tensor_info.depth → default_vel_of_eq tensor_info = 3.6)) := by
  refine ⟨fun hslow => ?_, fun hns => ⟨fun hle => ?_, fun hgt hle => ?_, fun hgt => ?_⟩⟩
  · simp only [default_vel_of_eq]
    rw [if_pos hslow]
  · simp only [default_vel_of_eq]
    rw [if_neg hns, if_neg (by linarith : ¬ tensor_info.depth > 300),
      if_neg (by linarith : ¬ tensor_info.depth > 100)]
  · simp only [default_vel_of_eq]
    rw [if_neg hns, if_neg (by linarith : ¬ tensor_info.depth > 300), if_pos hgt]
  · simp only [default_vel_of_eq]
    rw [if_neg hns, if_pos hgt]

/-- Witness for C5 at a concrete input: moment magnitude `10^27`
dyne-cm, `time_shift = 10`, `depth = 50` resolve to 2.5 km/s. -/
theorem claim_c5_default_vel_witness :
    default_vel_of_eq ⟨10, 50, 10 ^ 27, 0, 0, 0, 0, 0, 0, 0, 0⟩ = 2.5 := by
  have hpow : ((10 : ℝ) ^ (27 : ℕ)) ^ ((1 : ℝ) / 3) = (10 : ℝ) ^ (9 : ℕ) := by
    have h1 : ((10 : ℝ) ^ (27 : ℕ)) = ((10 : ℝ) ^ (9 : ℕ)) ^ (3 : ℕ) := by
      rw [← pow_mul]
    rw [h1, ← Real.rpow_natCast ((10 : ℝ) ^ (9 : ℕ)) 3,
      ← Real.rpow_mul (by positivity)]
    norm_num
  have hns : ¬ (⟨10, 50, 10 ^ 27, 0, 0, 0, 0, 0, 0, 0, 0⟩ : TensorInfo).time_shift /
      (1.2 * (10 : ℝ) ^ (-8 : ℤ) *
        (⟨10, 50, 10 ^ 27, 0, 0, 0, 0, 0, 0, 0, 0⟩ : TensorInfo).moment_mag ^
          ((1 : ℝ) / 3)) > 3 := by
    show ¬ (10 : ℝ) / (1.2 * (10 : ℝ) ^ (-8 : ℤ) * ((10 : ℝ) ^ (27 : ℕ)) ^ ((1 : ℝ) / 3)) > 3
    rw [hpow]
    norm_num
  exact ((claim_c5_default_vel ⟨10, 50, 10 ^ 27, 0, 0, 0, 0, 0, 0, 0, 0⟩
    (by positivity)).2 hns).1 (by norm_num)

/-- The rise-time estimator as the claim states it is falsified at
`time_shift = 11` with subfault spacings `delta_strike = delta_dip = 1`:
the branch window count is `int(1.5·1/4) = 0` and the returned `windows`
is 2, below the claimed lower bound of 3. -/
theorem claim_c6_counterexample :
    (rise_time_parameters ⟨11, 0, 0, 0, 0, 0, 0, 0, 0, 0, 0⟩ ⟨0, 1, 1, 1, 3⟩ []).windows = 2 ∧
    ¬ 3 ≤ (rise_time_parameters ⟨11, 0, 0, 0, 0, 0, 0, 0, 0, 0, 0⟩ ⟨0, 1, 1, 1, 3⟩ []).windows := by
  have h : (rise_time_parameters ⟨11, 0, 0, 0, 0, 0, 0, 0, 0, 0, 0⟩
      ⟨0, 1, 1, 1, 3⟩ []).windows = 2 := by
    simp only [rise_time_parameters]
    norm_num [pyInt]
  exact ⟨h, by rw [h]; norm_num⟩

/-- C6 (amended): for nonnegative subfault spacings the rise-time
estimator returns `min_rise = delta_rise` and `windows` equal to the
branch-computed count plus the padding of 2, hence at least 2 (the claimed
lower bound of 3 fails when the branch count is 0). -/
theorem claim_c6_rise_time (tensor_info : TensorInfo) (fault_dimensions : FaultDims)
    (data_type : List String) (hs : 0 ≤ fault_dimensions.delta_strike)
    (hd : 0 ≤ fault_dimensions.delta_dip) :
    (rise_time_parameters tensor_info fault_dimensions data_type).min_rise =
      (rise_time_parameters tensor_info fault_dimensions data_type).delta_rise ∧
    2 ≤ (rise_time_parameters tensor_info fault_dimensions data_type).windows := by
  have hM : (0 : ℝ) ≤ max fault_dimensions.delta_strike fault_dimensions.delta_dip :=
    le_trans hs (le_max_left _ _)
  constructor
  · rfl
  · simp only [rise_time_parameters]
    have key : ∀ c : ℝ, 0 < c →
        0 ≤ pyInt (1.5 * max fault_dimensions.delta_strike fault_dimensions.delta_dip / c) :=
      fun c hc => pyInt_nonneg (div_nonneg (mul_nonneg (by norm_num) hM) hc.le)
    set W := (if tensor_info.time_shift ≤ 10 then
        (pyInt (1.5 * max fault_dimensions.delta_strike fault_dimensions.delta_dip / 2),
          (1.0 : ℝ))
      else if tensor_info.time_shift ≤ 24 then
        (pyInt (1.5 * max fault_dimensions.delta_strike fault_dimensions.delta_dip / 4),
          (2.0 : ℝ))
      else if tensor_info.time_shift ≥ 48 then
        (pyInt (1.5 * max fault_dimensions.delta_strike fault_dimensions.delta_dip / 8),
          (4.0 : ℝ))
      else
        (pyInt (1.5 * max fault_dimensions.delta_strike fault_dimensions.delta_dip * 6 /
          tensor_info.time_shift), tensor_info.time_shift / 12)) with hWdef
    have hW1 : 0 ≤ W.1 := by
      rw [hWdef]
      split_ifs with u1 u2 u3
      · exact key 2 (by norm_num)
      · exact key 4 (by norm_num)
      · exact key 8 (by norm_num)
      · push_neg at u2
        exact pyInt_nonneg (div_nonneg
          (mul_nonneg (mul_nonneg (by norm_num) hM) (by norm_num)) (by linarith))
    split_ifs with hA hB
    · have := key 2 (by norm_num)
      omega
    · have h3 := key 3 (by norm_num)
      have hmax := le_max_right
        (pyInt (1.5 * max fault_dimensions.delta_strike fault_dimensions.delta_dip / 3)) W.1
      omega
    · omega

/-- Witness for C6 (amended) at the counterexample input. -/
theorem claim_c6_rise_time_witness :
    (rise_time_parameters ⟨11, 0, 0, 0, 0, 0, 0, 0, 0, 0, 0⟩ ⟨0, 1, 1, 1, 3⟩ []).min_rise =
      (rise_time_parameters ⟨11, 0, 0, 0, 0, 0, 0, 0, 0, 0, 0⟩ ⟨0, 1, 1, 1, 3⟩ []).delta_rise ∧
    2 ≤ (rise_time_parameters ⟨11, 0, 0, 0, 0, 0, 0, 0, 0, 0, 0⟩ ⟨0, 1, 1, 1, 3⟩ []).windows :=
  claim_c6_rise_time ⟨11, 0, 0, 0, 0, 0, 0, 0, 0, 0, 0⟩ ⟨0, 1, 1, 1, 3⟩ []
    (by norm_num) (by norm_num)

/-- C7: the coordinate transform computes exactly the two claimed
formulas, and is the identity at zero offset for strike ∈ [0,360),
dip ∈ (0,90) and a reference latitude whose cosine is nonzero. -/
theorem claim_c7_lat_lon (strike dip lat0 lon0 : ℝ)
    (hs0 : 0 ≤ strike) (hs1 : strike < 360) (hd0 : 0 < dip) (hd1 : dip < 90)
    (hc : Real.cos (lat0 * (Real.pi / 180)) ≠ 0) :
    (∀ x y : ℝ, lat_lon strike dip x y lat0 lon0 =
      (lat0 + (x * Real.cos (strike * (Real.pi / 180)) -
          y * Real.cos (dip * (Real.pi / 180)) * Real.sin (strike * (Real.pi / 180))) /
        111.12,
       lon0 + (x * Real.sin (strike * (Real.pi / 180)) +
          y * Real.cos (dip * (Real.pi / 180)) * Real.cos (strike * (Real.pi / 180))) /
        (111.12 * Real.cos (lat0 * (Real.pi / 180))))) ∧
    lat_lon strike dip 0 0 lat0 lon0 = (lat0, lon0) := by
  constructor
  · intro x y
    simp only [lat_lon]
    rw [div_div]
  · simp only [lat_lon]
    norm_num

/-- Witness for C7 at a concrete input (`strike = 0`, `dip = 45`,
reference point at the origin). -/
theorem claim_c7_lat_lon_witness : lat_lon 0 45 0 0 0 0 = (0, 0) :=
  (claim_c7_lat_lon 0 45 0 0 le_rfl (by norm_num) (by norm_num) (by norm_num)
    (by rw [zero_mul, Real.cos_zero]; norm_num)).2

/-- Evaluation of the hypocenter locator at a concrete shallow event:
strike 0, dip 30, rupture velocity 1, subfault grid 3×3 with spacings
2 km × 5 km, event depth 0.1 km, centroid at the epicenter.  The scan
breaks at `j = 0`, so `hyp_dip = 0`. -/
theorem hypLoc_eval :
    hypocenter_location2 ⟨0, 30, 0, 1⟩ ⟨0, 2, 5, 3, 3⟩
      ⟨0, 1 / 10, 0, 0, 0, 0, 0, 0, 0, 0, 0⟩ 0 ⟨1, 1, 3⟩ = some ⟨2, 0⟩ := by
  have h30 : (30 : ℝ) * (Real.pi / 180) = Real.pi / 6 := by ring
  have hs3 : Real.sqrt 3 ≠ 0 := by positivity
  simp only [hypocenter_location2, hypoSurfaceDist, hypDipScanProp, h30,
    Real.cos_pi_div_six, Real.sin_pi_div_six]
  norm_num [Real.cos_zero, Real.sin_zero, firstIdxAux, hypDipScanProp, pyInt,
    max_def, min_def, hs3]

/-- C3 as stated is false: the hypocenter locator does not clamp
`hyp_dip` to `[1, dip_subfaults]`.  At the concrete input of
`hypLoc_eval` (a valid 3×3 grid, shallow 0.1 km event) the shallow-event
scan breaks at `j = 0` and the locator returns `hyp_dip = 0`, outside
the claimed range `[1, 3]`. -/
theorem claim_c3_counterexample :
    ∃ loc, hypocenter_location2 ⟨0, 30, 0, 1⟩ ⟨0, 2, 5, 3, 3⟩
        ⟨0, 1 / 10, 0, 0, 0, 0, 0, 0, 0, 0, 0⟩ 0 ⟨1, 1, 3⟩ = some loc ∧
      loc.hyp_dip = 0 ∧ ¬ 1 ≤ loc.hyp_dip :=
  ⟨⟨2, 0⟩, hypLoc_eval, rfl, by norm_num⟩

/-- C3 (amended): whenever the hypocenter locator returns, `hyp_stk` is
1-indexed, clamped to `[1, stk_subfaults]` and forced to 1 on a
single-subfault axis; `hyp_dip` is forced to 1 on a single-subfault axis
and otherwise defaults to `trunc(dip_subfaults/2) + 1`, replaced — when
`delta_dip·dip_subfaults/2 > surface_dist` — by the first `j ≥ 0` with
`delta_dip·(j+0.5) > 1.01·surface_dist` (or by the last scanned index
when no scanned `j` qualifies); the replacement is *not* clamped and can
be 0. -/
theorem claim_c3_hypocenter_locator (plane_info : PlaneTensor)
    (fault_dimensions : FaultDims) (tensor_info : TensorInfo)
    (water_level : ℝ) (rise_time : RiseTime)
    (h1 : 1 ≤ fault_dimensions.stk_subfaults)
    (h2 : 1 ≤ fault_dimensions.dip_subfaults) (loc : HypLocation)
    (h : hypocenter_location2 plane_info fault_dimensions tensor_info
      water_level rise_time = some loc) :
    (1 ≤ loc.hyp_stk ∧ loc.hyp_stk ≤ fault_dimensions.stk_subfaults) ∧
    (fault_dimensions.stk_subfaults = 1 → loc.hyp_stk = 1) ∧
    (fault_dimensions.dip_subfaults = 1 → loc.hyp_dip = 1) ∧
    (1 < fault_dimensions.dip_subfaults →
      (¬ fault_dimensions.delta_dip * (fault_dimensions.dip_subfaults : ℝ) / 2.0 >
          hypoSurfaceDist plane_info tensor_info water_level →
        loc.hyp_dip = pyInt ((fault_dimensions.dip_subfaults : ℝ) / 2.0) + 1) ∧
      (fault_dimensions.delta_dip * (fault_dimensions.dip_subfaults : ℝ) / 2.0 >
          hypoSurfaceDist plane_info tensor_info water_level →
        (∃ j : ℕ, loc.hyp_dip = (j : ℤ) ∧
          (j : ℤ) < pyInt ((fault_dimensions.dip_subfaults : ℝ) / 2.0) + 1 ∧
          hypDipScanProp fault_dimensions
            (hypoSurfaceDist plane_info tensor_info water_level) j ∧
          ∀ k, k < j → ¬ hypDipScanProp fault_dimensions
            (hypoSurfaceDist plane_info tensor_info water_level) k) ∨
        ((∀ j : ℕ, (j : ℤ) < pyInt ((fault_dimensions.dip_subfaults : ℝ) / 2.0) + 1 →
            ¬ hypDipScanProp fault_dimensions
              (hypoSurfaceDist plane_info tensor_info water_level) j) ∧
          loc.hyp_dip =
            (((pyInt ((fault_dimensions.dip_subfaults : ℝ) / 2.0) + 1).toNat - 1 : ℕ) : ℤ)))) := by
  simp only [hypocenter_location2] at h
  split at h
  · exact absurd h (by simp)
  · rw [Option.some_inj] at h
    subst h
    refine ⟨?_, ?_, ?_, ?_⟩
    · dsimp only
      by_cases hstk : fault_dimensions.stk_subfaults > 1
      · rw [if_pos hstk]
        exact ⟨le_max_left _ _, max_le h1 (min_le_left _ _)⟩
      · rw [if_neg hstk]
        exact ⟨le_refl _, h1⟩
    · intro hone
      dsimp only
      rw [if_neg (by omega : ¬ fault_dimensions.stk_subfaults > 1)]
    · intro hone
      dsimp only
      rw [if_neg (by omega : ¬ fault_dimensions.dip_subfaults > 1)]
    · intro hgt
      constructor
      · intro hnc
        dsimp only
        rw [if_pos hgt, if_neg hnc]
      · intro hc
        dsimp only
        rw [if_pos hgt, if_pos hc]
        rcases hscan : firstIdxAux
            (hypDipScanProp fault_dimensions
              (hypoSurfaceDist plane_info tensor_info water_level))
            0 (pyInt ((fault_dimensions.dip_subfaults : ℝ) / 2.0) + 1).toNat
            with _ | j
        · right
          refine ⟨fun j hj => firstIdxAux_none 0 _ hscan j (Nat.zero_le _) (by omega), ?_⟩
          rfl
        · left
          obtain ⟨hpj, _, hjlt, hmin⟩ := firstIdxAux_some 0 _ j hscan
          refine ⟨j, ?_, by omega, hpj, fun k hk => hmin k (Nat.zero_le _) hk⟩
          rfl

/-- Witness for C3 (amended) at the counterexample input. -/
theorem claim_c3_hypocenter_locator_witness :
    ∃ loc, hypocenter_location2 ⟨0, 30, 0, 1⟩ ⟨0, 2, 5, 3, 3⟩
        ⟨0, 1 / 10, 0, 0, 0, 0, 0, 0, 0, 0, 0⟩ 0 ⟨1, 1, 3⟩ = some loc ∧
      1 ≤ loc.hyp_stk ∧ loc.hyp_stk ≤ 3 :=
  ⟨⟨2, 0⟩, hypLoc_eval,
    (claim_c3_hypocenter_locator ⟨0, 30, 0, 1⟩ ⟨0, 2, 5, 3, 3⟩
      ⟨0, 1 / 10, 0, 0, 0, 0, 0, 0, 0, 0, 0⟩ 0 ⟨1, 1, 3⟩ (by norm_num) (by norm_num)
      ⟨2, 0⟩ hypLoc_eval).1⟩

/-- C8: for every point-source field and velocity model, whenever the
shear-modulus computation returns, the value assigned to each subfault is
`s_vel[layer]² · density[layer] · 1e10`, where the representative depth is
the point source at the subfault's central sub-grid cell (indices
`dip_ps/2`, `strike_ps/2`) and `layer` is the first index whose
cumulative-thickness boundaries bracket that depth. -/
theorem claim_c8_shear_modulus (velmodel : Option VelModel)
    (point_sources : List PSArray) (grids : List (ℕ → ℕ → ℝ))
    (hg : shear_modulous point_sources velmodel = some grids)
    (s : ℕ) (ps : PSArray) (g : ℕ → ℕ → ℝ)
    (hs : point_sources[s]? = some ps) (hgs : grids[s]? = some g)
    (i j : ℕ) (hi : i < ps.nDip) (hj : j < ps.nStk) :
    let vm := velmodel.getD default_velmodel
    let dep := (ps.val i j (ps.dipPs / 2) (ps.strikePs / 2)).dep
    ∃ l, source_layer vm.thick dep = some l ∧
      (cumulDepth vm.thick l ≤ dep ∧ dep ≤ cumulDepth vm.thick (l + 1)) ∧
      (∀ k, k < l →
        ¬ (cumulDepth vm.thick k ≤ dep ∧ dep ≤ cumulDepth vm.thick (k + 1))) ∧
      g i j = (vm.s_vel.getD l 0) ^ 2 * (vm.dens.getD l 0) * 10 ^ 10 := by
  intro vm dep
  simp only [shear_modulous] at hg
  obtain ⟨b, hb, hb2⟩ := mapO_get? hg s ps hs
  have hbg : b = g := by
    rw [hb2] at hgs
    exact Option.some_inj.mp hgs
  subst hbg
  simp only [shear_seg] at hb
  split at hb
  · rename_i hcond
    rw [Option.some_inj] at hb
    subst hb
    have hl := hcond i hi j hj
    obtain ⟨l, hl⟩ := Option.isSome_iff_exists.mp hl
    obtain ⟨hp, _, _, hmin⟩ := firstIdxAux_some 0 _ l hl
    refine ⟨l, hl, hp, fun k hk => hmin k (Nat.zero_le _) hk, ?_⟩
    show (match source_layer vm.thick dep with
      | some l => (vm.s_vel.getD l 0) ^ 2 * (vm.dens.getD l 0) * 10 ^ 10
      | none => 0) = _
    rw [hl]
  · exact absurd hb (by simp)

/-- Witness for C8 at a concrete two-layer model and 1×1×1×1 field of
constant depth 5 km: layer 0 is selected and the modulus is
`3² · 2 · 1e10`. -/
theorem claim_c8_shear_modulus_witness :
    ∃ grids g, shear_modulous [⟨1, 1, 1, 1, fun _ _ _ _ => ⟨0, 0, 5, 0, 0, 0, 0⟩⟩]
        (some ⟨[6, 7], [3, 4], [2, 3], [10, 0]⟩) = some grids ∧
      grids[0]? = some g ∧
      ∃ l, source_layer [(10 : ℝ), 0] 5 = some l ∧
        (cumulDepth [(10 : ℝ), 0] l ≤ 5 ∧ (5 : ℝ) ≤ cumulDepth [(10 : ℝ), 0] (l + 1)) ∧
        (∀ k, k < l → ¬ (cumulDepth [(10 : ℝ), 0] k ≤ 5 ∧
          (5 : ℝ) ≤ cumulDepth [(10 : ℝ), 0] (k + 1))) ∧
        g 0 0 = (([3, 4] : List ℝ).getD l 0) ^ 2 * (([2, 3] : List ℝ).getD l 0) * 10 ^ 10 := by
  have hsl : source_layer [(10 : ℝ), 0] 5 = some 0 := by
    norm_num [source_layer, firstIdxAux, cumulDepth]
  have hcond : ∀ i < 1, ∀ j < 1, (source_layer [(10 : ℝ), 0] 5).isSome := by
    intro i _ j _
    rw [hsl]
    rfl
  have hseg : ∃ b, shear_seg ⟨[6, 7], [3, 4], [2, 3], [10, 0]⟩
      ⟨1, 1, 1, 1, fun _ _ _ _ => ⟨0, 0, 5, 0, 0, 0, 0⟩⟩ = some b := by
    simp only [shear_seg]
    rw [if_pos hcond]
    exact ⟨_, rfl⟩
  obtain ⟨grids, hg⟩ : ∃ grids, shear_modulous
      [⟨1, 1, 1, 1, fun _ _ _ _ => ⟨0, 0, 5, 0, 0, 0, 0⟩⟩]
      (some ⟨[6, 7], [3, 4], [2, 3], [10, 0]⟩) = some grids := by
    simp only [shear_modulous, Option.getD_some]
    exact mapO_isSome_of_forall fun a ha => by
      rw [List.mem_singleton] at ha
      subst ha
      exact hseg
  obtain ⟨g, _, hgs⟩ := mapO_get? (by simpa [shear_modulous] using hg) 0
    (⟨1, 1, 1, 1, fun _ _ _ _ => ⟨0, 0, 5, 0, 0, 0, 0⟩⟩ : PSArray) (by simp)
  refine ⟨grids, g, hg, hgs, ?_⟩
  have h := claim_c8_shear_modulus
    (some ⟨[6, 7], [3, 4], [2, 3], [10, 0]⟩)
    [⟨1, 1, 1, 1, fun _ _ _ _ => ⟨0, 0, 5, 0, 0, 0, 0⟩⟩] grids hg 0
    ⟨1, 1, 1, 1, fun _ _ _ _ => ⟨0, 0, 5, 0, 0, 0, 0⟩⟩ g (by simp) hgs
    0 0 (by norm_num) (by norm_num)
  exact h

theorem pyInt_one : pyInt 1 = 1 := by
  simp [pyInt]

/-- C9: writing the structured document and the legacy fixed-layout text
record from identical single-plane inputs and re-parsing the legacy record
reproduces the structured document exactly (hence within floating-point
tolerance): every per-segment field (strike, dip, rake, rupture_vel,
delta_strike, delta_dip, stk_subfaults, dip_subfaults, hyp_stk, hyp_dip,
delay_segment, neighbours) and every rise-time field (min_rise,
delta_rise, windows) agrees.  The single-plane writer always records
`delay_segment = 0`, which is also the only value `__subfaults_properties`
produces. -/
theorem claim_c9_round_trip (tensor_info : TensorInfo) (plane_tensor : PlaneTensor)
    (subfaults : FaultDims) (epicenter_loc : HypLocation) (rise_time : RiseTime)
    (hdelay : subfaults.delay_segment = 0) :
    event_mult_in_to_json
      (write_event_mult_in tensor_info plane_tensor subfaults epicenter_loc rise_time) =
    save_plane_data plane_tensor subfaults epicenter_loc rise_time := by
  simp only [event_mult_in_to_json, write_event_mult_in, save_plane_data]
  norm_num [parseSegments, tok, List.getD, pyInt_intCast, pyInt_one, hdelay]

/-- Witness for C9 at a concrete input. -/
theorem claim_c9_round_trip_witness :
    event_mult_in_to_json (write_event_mult_in ⟨0, 0, 0, 0, 0, 0, 0, 0, 0, 0, 0⟩
      ⟨0, 0, 0, 0⟩ ⟨0, 0, 0, 0, 0⟩ ⟨0, 0⟩ ⟨0, 0, 0⟩) =
    save_plane_data ⟨0, 0, 0, 0⟩ ⟨0, 0, 0, 0, 0⟩ ⟨0, 0⟩ ⟨0, 0, 0⟩ :=
  claim_c9_round_trip ⟨0, 0, 0, 0, 0, 0, 0, 0, 0, 0, 0⟩ ⟨0, 0, 0, 0⟩
    ⟨0, 0, 0, 0, 0⟩ ⟨0, 0⟩ ⟨0, 0, 0⟩ rfl

theorem mapE_ok_of_forall {f : α → Except ε β} :
    ∀ {l : List α}, (∀ a ∈ l, ∃ b, f a = .ok b) → ∃ bs, mapE f l = .ok bs := by
  intro l
  induction l with
  | nil => intro _; exact ⟨[], rfl⟩
  | cons x xs ih =>
    intro h
    obtain ⟨b, hb⟩ := h x (by simp)
    obtain ⟨bs, hbs⟩ := ih fun a ha => h a (by simp [ha])
    exact ⟨b :: bs, by simp [mapE, hb, hbs]⟩

theorem mapE_error_mem {f : α → Except ε β} :
    ∀ {l : List α} {e : ε}, mapE f l = .error e → ∃ a ∈ l, f a = .error e := by
  intro l
  induction l with
  | nil => intro e h; simp [mapE] at h
  | cons x xs ih =>
    intro e h
    rcases hx : f x with e' | b
    · simp [mapE, hx] at h
      exact ⟨x, by simp, by rw [hx, h]⟩
    · rcases hxs : mapE f xs with e' | bs
      · simp [mapE, hx, hxs] at h
        obtain ⟨a, ha, hfa⟩ := ih hxs
        exact ⟨a, by simp [ha], by rw [hfa, h]⟩
      · simp [mapE, hx, hxs] at h

theorem mapE_error_of_mem {f : α → Except ε β} :
    ∀ {l : List α} {a : α} {e : ε}, a ∈ l → f a = .error e →
      ∃ e', mapE f l = .error e' := by
  intro l
  induction l with
  | nil => intro a e ha; simp at ha
  | cons x xs ih =>
    intro a e ha hfa
    rcases hx : f x with e' | b
    · exact ⟨e', by simp [mapE, hx]⟩
    · rcases List.mem_cons.mp ha with rfl | ha'
      · rw [hfa] at hx; cases hx
      · obtain ⟨e', he'⟩ := ih ha' hfa
        exact ⟨e', by simp [mapE, hx, he']⟩

theorem mapE_congr {R : α → α' → Prop} {f : α → Except ε β} {g : α' → Except ε β} :
    ∀ {l : List α} {l' : List α'}, List.Forall₂ R l l' →
      (∀ a b, R a b → f a = g b) → mapE f l = mapE g l' := by
  intro l l' h hf
  induction h with
  | nil => rfl
  | cons hab _ ih => simp only [mapE, hf _ _ hab, ih]

theorem getElem?_mem_of {l : List α} {i : ℕ} {a : α} (h : l[i]? = some a) :
    a ∈ l := by
  induction l generalizing i with
  | nil => simp at h
  | cons x xs ih =>
    cases i with
    | zero => simp at h; simp [h]
    | succ n => simp at h; exact List.mem_cons_of_mem _ (ih h)

theorem mem_getElem?_of {l : List α} {a : α} (h : a ∈ l) : ∃ i : ℕ, l[i]? = some a := by
  induction l with
  | nil => simp at h
  | cons x xs ih =>
    rcases List.mem_cons.mp h with rfl | h'
    · exact ⟨0, by simp⟩
    · obtain ⟨i, hi⟩ := ih h'
      exact ⟨i + 1, by simpa using hi⟩

theorem zip_getElem? {l1 : List α} {l2 : List β} :
    ∀ {i : ℕ} {a : α} {b : β}, l1[i]? = some a → l2[i]? = some b →
      (l1.zip l2)[i]? = some (a, b) := by
  induction l1 generalizing l2 with
  | nil => intro i a b h; simp at h
  | cons x xs ih =>
    intro i a b h1 h2
    cases l2 with
    | nil => simp at h2
    | cons y ys =>
      cases i with
      | zero => simp at h1 h2; simp [h1, h2]
      | succ n => simp at h1 h2 ⊢; exact ih h1 h2

theorem zip_getElem?_inv {l1 : List α} {l2 : List β} :
    ∀ {i : ℕ} {p : α × β}, (l1.zip l2)[i]? = some p →
      l1[i]? = some p.1 ∧ l2[i]? = some p.2 := by
  induction l1 generalizing l2 with
  | nil => intro i p h; simp at h
  | cons x xs ih =>
    intro i p h
    cases l2 with
    | nil => simp at h
    | cons y ys =>
      cases i with
      | zero => simp at h ⊢; simp [← h]
      | succ n => simp at h ⊢; exact ih h

theorem initFrames_length (ctx : GenCtx) (s0 : Segment) (segments : List Segment) :
    (initFrames ctx s0 segments).length = segments.length := by
  simp [initFrames]

theorem applyConn_length {ctx : GenCtx} {segments : List Segment}
    {refs refs' : List (Option Frame)} {c : Connection}
    (h : applyConn ctx segments refs c = .ok refs') : refs'.length = refs.length := by
  simp only [applyConn] at h
  split at h
  · cases h
  · split at h
    · cases h
    · split at h
      · rw [Except.ok.injEq] at h
        subst h
        simp
      · cases h

theorem resolveConns_length {ctx : GenCtx} {segments : List Segment} :
    ∀ {cs : List Connection} {refs refs' : List (Option Frame)},
      resolveConns ctx segments cs refs = .ok refs' → refs'.length = refs.length := by
  intro cs
  induction cs with
  | nil =>
    intro refs refs' h
    rw [resolveConns, Except.ok.injEq] at h
    subst h
    rfl
  | cons c cs ih =>
    intro refs refs' h
    rw [resolveConns] at h
    split at h
    · cases h
    · rename_i refs2 h2
      exact (ih h).trans (applyConn_length h2)

theorem hypocentersOf_length (ctx : GenCtx) (segments : List Segment) :
    (hypocentersOf ctx segments).length = segments.length := by
  simp [hypocentersOf]

/-- The cell body errors exactly on a sub-0.1 depth, and the error is
always the geometry error. -/
theorem cellPS_error_iff {distazbaz : ℝ → ℝ → ℝ → ℝ → ℝ × ℝ × ℝ} {ctx : GenCtx}
    {seg : Segment} {f : Frame} {hypo : ℝ × ℝ × ℝ} {k2 j2 k1 j1 : ℕ} {e : PSError}
    (h : cellPS distazbaz ctx seg f hypo k2 j2 k1 j1 = .error e) :
    e = .aboveGround ∧ cellDep ctx seg f k2 k1 < 0.1 := by
  simp only [cellPS] at h
  split at h
  · rw [Except.error.injEq] at h
    exact ⟨h.symm, by assumption⟩
  · cases h

theorem cellPS_ok_of {distazbaz : ℝ → ℝ → ℝ → ℝ → ℝ × ℝ × ℝ} {ctx : GenCtx}
    {seg : Segment} {f : Frame} {hypo : ℝ × ℝ × ℝ} {k2 j2 k1 j1 : ℕ}
    (h : ¬ cellDep ctx seg f k2 k1 < 0.1) :
    ∃ b, cellPS distazbaz ctx seg f hypo k2 j2 k1 j1 = .ok b := by
  simp only [cellPS]
  rw [if_neg h]
  exact ⟨_, rfl⟩

theorem cellPS_error_of {distazbaz : ℝ → ℝ → ℝ → ℝ → ℝ × ℝ × ℝ} {ctx : GenCtx}
    {seg : Segment} {f : Frame} {hypo : ℝ × ℝ × ℝ} {k2 j2 k1 j1 : ℕ}
    (h : cellDep ctx seg f k2 k1 < 0.1) :
    cellPS distazbaz ctx seg f hypo k2 j2 k1 j1 = .error .aboveGround := by
  simp only [cellPS]
  rw [if_pos h]

/-- Any error of one segment's cell loops is the geometry error, at a cell
inside the loop ranges whose depth is below the floor. -/
theorem segMatrix_error_mem {distazbaz : ℝ → ℝ → ℝ → ℝ → ℝ × ℝ × ℝ} {ctx : GenCtx}
    {seg : Segment} {f : Frame} {hypo : ℝ × ℝ × ℝ} {e : PSError}
    (h : segMatrix distazbaz ctx seg f hypo = .error e) :
    e = .aboveGround ∧ ∃ k2 j2 k1 j1, k2 < seg.dip_subfaults ∧
      j2 < seg.stk_subfaults ∧ k1 < ctx.dip_ps.toNat ∧ j1 < ctx.strike_ps.toNat ∧
      cellDep ctx seg f k2 k1 < 0.1 := by
  simp only [segMatrix] at h
  obtain ⟨k2, hk2, h⟩ := mapE_error_mem h
  obtain ⟨j2, hj2, h⟩ := mapE_error_mem h
  obtain ⟨k1, hk1, h⟩ := mapE_error_mem h
  obtain ⟨j1, hj1, h⟩ := mapE_error_mem h
  obtain ⟨he, hdep⟩ := cellPS_error_iff h
  exact ⟨he, k2, j2, k1, j1, List.mem_range.mp hk2, List.mem_range.mp hj2,
    List.mem_range.mp hk1, List.mem_range.mp hj1, hdep⟩

theorem segMatrix_ok_of {distazbaz : ℝ → ℝ → ℝ → ℝ → ℝ × ℝ × ℝ} {ctx : GenCtx}
    {seg : Segment} {f : Frame} {hypo : ℝ × ℝ × ℝ}
    (h : ∀ k2 j2 k1 j1 : ℕ, k2 < seg.dip_subfaults → j2 < seg.stk_subfaults →
      k1 < ctx.dip_ps.toNat → j1 < ctx.strike_ps.toNat →
      ¬ cellDep ctx seg f k2 k1 < 0.1) :
    ∃ m, segMatrix distazbaz ctx seg f hypo = .ok m := by
  simp only [segMatrix]
  refine mapE_ok_of_forall fun k2 hk2 => ?_
  refine mapE_ok_of_forall fun j2 hj2 => ?_
  refine mapE_ok_of_forall fun k1 hk1 => ?_
  refine mapE_ok_of_forall fun j1 hj1 => ?_
  exact cellPS_ok_of (h k2 j2 k1 j1 (List.mem_range.mp hk2) (List.mem_range.mp hj2)
    (List.mem_range.mp hk1) (List.mem_range.mp hj1))

theorem segMatrix_error_of {distazbaz : ℝ → ℝ → ℝ → ℝ → ℝ × ℝ × ℝ} {ctx : GenCtx}
    {seg : Segment} {f : Frame} {hypo : ℝ × ℝ × ℝ} {k2 j2 k1 j1 : ℕ}
    (hk2 : k2 < seg.dip_subfaults) (hj2 : j2 < seg.stk_subfaults)
    (hk1 : k1 < ctx.dip_ps.toNat) (hj1 : j1 < ctx.strike_ps.toNat)
    (hdep : cellDep ctx seg f k2 k1 < 0.1) :
    ∃ e, segMatrix distazbaz ctx seg f hypo = .error e := by
  simp only [segMatrix]
  have hcell : cellPS distazbaz ctx seg f hypo k2 j2 k1 j1 = .error .aboveGround :=
    cellPS_error_of hdep
  obtain ⟨e1, he1⟩ := @mapE_error_of_mem _ _ _
    (fun j1' => cellPS distazbaz ctx seg f hypo k2 j2 k1 j1') _ _ _
    (List.mem_range.mpr hj1) hcell
  obtain ⟨e2, he2⟩ := @mapE_error_of_mem _ _ _
    (fun k1' => mapE (fun j1' => cellPS distazbaz ctx seg f hypo k2 j2 k1' j1')
      (List.range ctx.strike_ps.toNat)) _ _ _
    (List.mem_range.mpr hk1) he1
  obtain ⟨e3, he3⟩ := @mapE_error_of_mem _ _ _
    (fun j2' => mapE (fun k1' =>
      mapE (fun j1' => cellPS distazbaz ctx seg f hypo k2 j2' k1' j1')
        (List.range ctx.strike_ps.toNat))
      (List.range ctx.dip_ps.toNat)) _ _ _
    (List.mem_range.mpr hj2) he2
  exact @mapE_error_of_mem _ _ _
    (fun k2' => mapE (fun j2' => mapE (fun k1' =>
      mapE (fun j1' => cellPS distazbaz ctx seg f hypo k2' j2' k1' j1')
        (List.range ctx.strike_ps.toNat))
      (List.range ctx.dip_ps.toNat))
      (List.range seg.stk_subfaults)) _ _ _
    (List.mem_range.mpr hk2) he3

/-- C1 (amended): on a nonempty segment list whose reference frames all
resolve (segment 0, a hypocenter override, or a connection target), the
point-source field generator raises the geometry error exactly when some
cell's computed depth is below the 0.1 km floor — producing no field at
all — and returns the complete dense field when every cell's depth is at
least 0.1 km.  (Without the frame proviso the generator aborts with a
different, non-geometry error before the depth check; see the
counterexample.) -/
theorem claim_c1_geometry_error (distazbaz : ℝ → ℝ → ℝ → ℝ → ℝ × ℝ × ℝ)
    (s0 : Segment) (rest : List Segment) (tensor_info : TensorInfo)
    (rise_time : RiseTime) (connections : List Connection)
    (refs : List (Option Frame))
    (hframes : framesOf (s0 :: rest) tensor_info rise_time connections = .ok refs)
    (hall : ∀ i < (s0 :: rest).length, ∃ f, refs[i]? = some (some f)) :
    (point_sources_param distazbaz (s0 :: rest) tensor_info rise_time connections =
        .error .aboveGround ↔
      ∃ i k2 j2 k1 j1 d, cellDepth (s0 :: rest) tensor_info rise_time connections
        i k2 j2 k1 j1 = some d ∧ d < 0.1) ∧
    ((∀ i k2 j2 k1 j1 d, cellDepth (s0 :: rest) tensor_info rise_time connections
        i k2 j2 k1 j1 = some d → 0.1 ≤ d) →
      ∃ F, point_sources_param distazbaz (s0 :: rest) tensor_info rise_time
        connections = .ok F) := by
  have hframes' : resolveConns (mkCtx s0 tensor_info rise_time) (s0 :: rest)
      connections
      (initFrames (mkCtx s0 tensor_info rise_time) s0 (s0 :: rest)) = .ok refs := by
    simpa only [framesOf] using hframes
  have hcd_some : ∀ (i k2 j2 k1 j1 : ℕ) (seg : Segment) (f : Frame),
      (s0 :: rest)[i]? = some seg → refs[i]? = some (some f) →
      cellDepth (s0 :: rest) tensor_info rise_time connections i k2 j2 k1 j1 =
      (if k2 < seg.dip_subfaults ∧ j2 < seg.stk_subfaults ∧
          k1 < (mkCtx s0 tensor_info rise_time).dip_ps.toNat ∧
          j1 < (mkCtx s0 tensor_info rise_time).strike_ps.toNat then
        some (cellDep (mkCtx s0 tensor_info rise_time) seg f k2 k1)
      else none) := by
    intro i k2 j2 k1 j1 seg f hsegi hrefi
    simp only [cellDepth, hframes, hsegi, hrefi]
  have hcd_inv : ∀ i k2 j2 k1 j1 : ℕ, ∀ d : ℝ,
      cellDepth (s0 :: rest) tensor_info rise_time connections i k2 j2 k1 j1 = some d →
      ∃ seg f, (s0 :: rest)[i]? = some seg ∧ refs[i]? = some (some f) ∧
        k2 < seg.dip_subfaults ∧ j2 < seg.stk_subfaults ∧
        k1 < (mkCtx s0 tensor_info rise_time).dip_ps.toNat ∧
        j1 < (mkCtx s0 tensor_info rise_time).strike_ps.toNat ∧
        d = cellDep (mkCtx s0 tensor_info rise_time) seg f k2 k1 := by
    intro i k2 j2 k1 j1 d h
    simp only [cellDepth, hframes] at h
    rcases hsegi : (s0 :: rest)[i]? with _ | seg
    · rw [hsegi] at h; simp at h
    rcases hrefi : refs[i]? with _ | f?
    · rw [hsegi, hrefi] at h; simp at h
    rcases f? with _ | f
    · rw [hsegi, hrefi] at h; simp at h
    rw [hsegi, hrefi] at h
    dsimp only at h
    split at h
    · rename_i hbounds
      exact ⟨seg, f, rfl, rfl, hbounds.1, hbounds.2.1, hbounds.2.2.1,
        hbounds.2.2.2, (Option.some_inj.mp h).symm⟩
    · cases h
  simp only [point_sources_param, hframes']
  have hAG : ∀ e', mapE (fun t =>
        match t.2.1 with
        | none => .error .badFrame
        | some f => segMatrix distazbaz (mkCtx s0 tensor_info rise_time) t.1 f t.2.2)
      ((s0 :: rest).zip (refs.zip
        (hypocentersOf (mkCtx s0 tensor_info rise_time) (s0 :: rest)))) = .error e' →
      e' = PSError.aboveGround ∧
      ∃ i k2 j2 k1 j1 d, cellDepth (s0 :: rest) tensor_info rise_time connections
        i k2 j2 k1 j1 = some d ∧ d < 0.1 := by
    intro e' he'
    obtain ⟨t, htmem, hterr⟩ := mapE_error_mem he'
    obtain ⟨n, htn⟩ := mem_getElem?_of htmem
    obtain ⟨hseg_n, hrest_n⟩ := zip_getElem?_inv htn
    obtain ⟨href_n, hhyp_n⟩ := zip_getElem?_inv hrest_n
    have hn_lt : n < (s0 :: rest).length := by
      by_contra hc
      push_neg at hc
      rw [List.getElem?_eq_none hc] at hseg_n
      cases hseg_n
    obtain ⟨f, hf⟩ := hall n hn_lt
    rw [hf] at href_n
    have t21 : t.2.1 = some f := (Option.some_inj.mp href_n).symm
    rw [t21] at hterr
    obtain ⟨he, k2, j2, k1, j1, hk2, hj2, hk1, hj1, hdep⟩ := segMatrix_error_mem hterr
    refine ⟨he, n, k2, j2, k1, j1,
      cellDep (mkCtx s0 tensor_info rise_time) t.1 f k2 k1, ?_, hdep⟩
    rw [hcd_some n k2 j2 k1 j1 t.1 f hseg_n hf]
    rw [if_pos ⟨hk2, hj2, hk1, hj1⟩]
  constructor
  · constructor
    · intro herr
      exact (hAG _ herr).2
    · rintro ⟨i, k2, j2, k1, j1, d, hcdi, hdlt⟩
      obtain ⟨seg, f, hsegi, hrefi, hk2, hj2, hk1, hj1, hdval⟩ :=
        hcd_inv i k2 j2 k1 j1 d hcdi
      subst hdval
      have hdep : cellDep (mkCtx s0 tensor_info rise_time) seg f k2 k1 < 0.1 := hdlt
      have hhyp : (hypocentersOf (mkCtx s0 tensor_info rise_time) (s0 :: rest))[i]? =
          some (seg.hypocenter.getD
            ((mkCtx s0 tensor_info rise_time).event_lat,
              (mkCtx s0 tensor_info rise_time).event_lon,
              (mkCtx s0 tensor_info rise_time).depth)) := by
        simp only [hypocentersOf, List.getElem?_map, hsegi, Option.map_some']
      have hzip := zip_getElem? hsegi (zip_getElem? hrefi hhyp)
      obtain ⟨e, he⟩ := segMatrix_error_of hk2 hj2 hk1 hj1 hdep
      have hsegf : (fun t =>
          match t.2.1 with
          | none => Except.error PSError.badFrame
          | some fr => segMatrix distazbaz (mkCtx s0 tensor_info rise_time)
              t.1 fr t.2.2)
          (seg, ((some f : Option Frame), seg.hypocenter.getD
            ((mkCtx s0 tensor_info rise_time).event_lat,
              (mkCtx s0 tensor_info rise_time).event_lon,
              (mkCtx s0 tensor_info rise_time).depth))) =
          segMatrix distazbaz (mkCtx s0 tensor_info rise_time) seg f
            (seg.hypocenter.getD
              ((mkCtx s0 tensor_info rise_time).event_lat,
                (mkCtx s0 tensor_info rise_time).event_lon,
                (mkCtx s0 tensor_info rise_time).depth)) := rfl
      obtain ⟨e', herr⟩ := @mapE_error_of_mem _ _ _
        (fun t => match t.2.1 with
          | none => Except.error PSError.badFrame
          | some fr => segMatrix distazbaz (mkCtx s0 tensor_info rise_time)
              t.1 fr t.2.2) _ _ _
        (getElem?_mem_of hzip) (hsegf.trans he)
      have hag := (hAG e' herr).1
      rw [← hag]
      exact herr
  · intro hdeep
    apply mapE_ok_of_forall
    intro t htmem
    obtain ⟨n, htn⟩ := mem_getElem?_of htmem
    obtain ⟨hseg_n, hrest_n⟩ := zip_getElem?_inv htn
    obtain ⟨href_n, hhyp_n⟩ := zip_getElem?_inv hrest_n
    have hn_lt : n < (s0 :: rest).length := by
      by_contra hc
      push_neg at hc
      rw [List.getElem?_eq_none hc] at hseg_n
      cases hseg_n
    obtain ⟨f, hf⟩ := hall n hn_lt
    rw [hf] at href_n
    have t21 : t.2.1 = some f := (Option.some_inj.mp href_n).symm
    rw [t21]
    apply segMatrix_ok_of
    intro k2 j2 k1 j1 hk2 hj2 hk1 hj1
    apply not_lt.mpr
    apply hdeep n k2 j2 k1 j1
    rw [hcd_some n k2 j2 k1 j1 t.1 f hseg_n hf]
    rw [if_pos ⟨hk2, hj2, hk1, hj1⟩]

/-- C1 as stated is false without a frame-resolution proviso: with two
segments where the second has no hypocenter override and no connection,
every defined cell depth is 100 km (≥ 0.1), yet the generator does not
return a field — it aborts with the frame error (`ValueError` from
unpacking the `[]` placeholder in the original code), so the "complete
field is returned" direction of the claim fails. -/
theorem claim_c1_counterexample :
    (∀ i k2 j2 k1 j1 : ℕ, ∀ d : ℝ,
      cellDepth [⟨0, 90, 1, 1, 100, 1, 1, 1, 1, 0, none⟩,
          ⟨0, 90, 1, 1, 100, 1, 1, 1, 1, 0, none⟩]
        ⟨0, 100, 0, 0, 0, 0, 0, 0, 0, 0, 0⟩ ⟨1, 1, 3⟩ [] i k2 j2 k1 j1 = some d →
        0.1 ≤ d) ∧
    point_sources_param (fun _ _ _ _ => (0, 0, 0))
      [⟨0, 90, 1, 1, 100, 1, 1, 1, 1, 0, none⟩,
        ⟨0, 90, 1, 1, 100, 1, 1, 1, 1, 0, none⟩]
      ⟨0, 100, 0, 0, 0, 0, 0, 0, 0, 0, 0⟩ ⟨1, 1, 3⟩ [] = .error .badFrame ∧
    ¬ ∃ F, point_sources_param (fun _ _ _ _ => (0, 0, 0))
      [⟨0, 90, 1, 1, 100, 1, 1, 1, 1, 0, none⟩,
        ⟨0, 90, 1, 1, 100, 1, 1, 1, 1, 0, none⟩]
      ⟨0, 100, 0, 0, 0, 0, 0, 0, 0, 0, 0⟩ ⟨1, 1, 3⟩ [] = .ok F := by
  have herr : point_sources_param (fun _ _ _ _ => (0, 0, 0))
      [⟨0, 90, 1, 1, 100, 1, 1, 1, 1, 0, none⟩,
        ⟨0, 90, 1, 1, 100, 1, 1, 1, 1, 0, none⟩]
      ⟨0, 100, 0, 0, 0, 0, 0, 0, 0, 0, 0⟩ ⟨1, 1, 3⟩ [] = .error .badFrame := by
    simp only [point_sources_param, mkCtx, point_sources_def, initFrames, initFrame,
      hypocentersOf, resolveConns, List.enum, List.enumFrom, List.map,
      List.zip_cons_cons, List.zip_nil_right, mapE, segMatrix, cellPS, cellDep,
      lat_lon, List.range_succ, List.range_zero]
    norm_num [pyInt, mapE]
  refine ⟨?_, herr, ?_⟩
  swap
  · rintro ⟨F, hF⟩
    rw [herr] at hF
    cases hF
  intro i k2 j2 k1 j1 d h
  rcases i with _ | _ | i
  · simp only [cellDepth, framesOf, resolveConns, initFrames, initFrame, mkCtx,
      point_sources_def, hypocentersOf, List.enum, List.enumFrom, List.map] at h
    norm_num [pyInt] at h
    obtain ⟨⟨hk2, hj2, hk1, hj1⟩, hd⟩ := h
    subst hk2
    subst hk1
    rw [← hd]
    norm_num [cellDep]
  · simp only [cellDepth, framesOf, resolveConns, initFrames, initFrame, mkCtx,
      point_sources_def, hypocentersOf, List.enum, List.enumFrom, List.map] at h
    norm_num [pyInt] at h
    exact Option.noConfusion h
  · simp only [cellDepth, framesOf, resolveConns, initFrames, initFrame, mkCtx,
      point_sources_def, hypocentersOf, List.enum, List.enumFrom, List.map] at h
    norm_num [pyInt] at h
    exact Option.noConfusion h

/-- Witness for C1 (amended) at a concrete single-segment input whose
frame resolves and whose single cell has depth 100 km: the generator
returns a complete field. -/
theorem claim_c1_geometry_error_witness :
    ∃ refs F,
      framesOf [⟨0, 90, 1, 1, 100, 1, 1, 1, 1, 0, none⟩]
        ⟨0, 100, 0, 0, 0, 0, 0, 0, 0, 0, 0⟩ ⟨1, 1, 3⟩ [] = .ok refs ∧
      (∀ i < 1, ∃ f, refs[i]? = some (some f)) ∧
      point_sources_param (fun _ _ _ _ => (0, 0, 0))
        [⟨0, 90, 1, 1, 100, 1, 1, 1, 1, 0, none⟩]
        ⟨0, 100, 0, 0, 0, 0, 0, 0, 0, 0, 0⟩ ⟨1, 1, 3⟩ [] = .ok F := by
  have hframes : framesOf [⟨0, 90, 1, 1, 100, 1, 1, 1, 1, 0, none⟩]
      ⟨0, 100, 0, 0, 0, 0, 0, 0, 0, 0, 0⟩ ⟨1, 1, 3⟩ [] =
      .ok (initFrames (mkCtx ⟨0, 90, 1, 1, 100, 1, 1, 1, 1, 0, none⟩
        ⟨0, 100, 0, 0, 0, 0, 0, 0, 0, 0, 0⟩ ⟨1, 1, 3⟩)
        ⟨0, 90, 1, 1, 100, 1, 1, 1, 1, 0, none⟩
        [⟨0, 90, 1, 1, 100, 1, 1, 1, 1, 0, none⟩]) := rfl
  have hall : ∀ i < 1, ∃ f, (initFrames (mkCtx ⟨0, 90, 1, 1, 100, 1, 1, 1, 1, 0, none⟩
      ⟨0, 100, 0, 0, 0, 0, 0, 0, 0, 0, 0⟩ ⟨1, 1, 3⟩)
      ⟨0, 90, 1, 1, 100, 1, 1, 1, 1, 0, none⟩
      [⟨0, 90, 1, 1, 100, 1, 1, 1, 1, 0, none⟩])[i]? = some (some f) := by
    intro i hi
    interval_cases i
    exact ⟨_, rfl⟩
  have halldeep : ∀ i k2 j2 k1 j1 : ℕ, ∀ d : ℝ,
      cellDepth [⟨0, 90, 1, 1, 100, 1, 1, 1, 1, 0, none⟩]
        ⟨0, 100, 0, 0, 0, 0, 0, 0, 0, 0, 0⟩ ⟨1, 1, 3⟩ [] i k2 j2 k1 j1 = some d →
      0.1 ≤ d := by
    intro i k2 j2 k1 j1 d h
    rcases i with _ | i
    · simp only [cellDepth, framesOf, resolveConns, initFrames, initFrame, mkCtx,
        point_sources_def, hypocentersOf, List.enum, List.enumFrom, List.map] at h
      norm_num [pyInt] at h
      obtain ⟨⟨hk2, hj2, hk1, hj1⟩, hd⟩ := h
      subst hk2
      subst hk1
      rw [← hd]
      norm_num [cellDep]
    · simp only [cellDepth, framesOf, resolveConns, initFrames, initFrame, mkCtx,
        point_sources_def, hypocentersOf, List.enum, List.enumFrom, List.map] at h
      norm_num [pyInt] at h
      exact Option.noConfusion h
  obtain ⟨F, hF⟩ := (claim_c1_geometry_error (fun _ _ _ _ => (0, 0, 0))
    ⟨0, 90, 1, 1, 100, 1, 1, 1, 1, 0, none⟩ []
    ⟨0, 100, 0, 0, 0, 0, 0, 0, 0, 0, 0⟩ ⟨1, 1, 3⟩ [] _ hframes hall).2 halldeep
  exact ⟨_, F, hframes, hall, hF⟩

theorem forall₂_getElem? {R : α → β → Prop} :
    ∀ {l : List α} {l' : List β}, List.Forall₂ R l l' → ∀ i : ℕ,
      (l[i]? = none ∧ l'[i]? = none) ∨
      ∃ a b, l[i]? = some a ∧ l'[i]? = some b ∧ R a b := by
  intro l l' h
  induction h with
  | nil => intro i; left; simp
  | cons hab htl ih =>
    intro i
    cases i with
    | zero => right; exact ⟨_, _, by simp, by simp, hab⟩
    | succ n =>
      rcases ih n with ⟨h1, h2⟩ | ⟨x, y, h1, h2, hr⟩
      · left; exact ⟨by simp [h1], by simp [h2]⟩
      · right; exact ⟨x, y, by simp [h1], by simp [h2], hr⟩

theorem initFrame_congr {ctx : GenCtx} {s0 s0' a b : Segment}
    (h0 : UsedEq s0 s0') (hab : UsedEq a b) (n : ℕ) :
    initFrame ctx s0 (n, a) = initFrame ctx s0' (n, b) := by
  obtain ⟨_, _, _, _, hhs, hhd, _, hhypo⟩ := hab
  obtain ⟨_, _, _, _, hs0s, hs0d, _, _⟩ := h0
  simp only [initFrame, hhypo, hhs, hhd, hs0s, hs0d]

theorem initFrames_congr {ctx : GenCtx} {s0 s0' : Segment} (h0 : UsedEq s0 s0') :
    ∀ {segs segs' : List Segment}, List.Forall₂ UsedEq segs segs' →
      initFrames ctx s0 segs = initFrames ctx s0' segs' := by
  suffices aux : ∀ (n : ℕ) {segs segs' : List Segment},
      List.Forall₂ UsedEq segs segs' →
      (List.enumFrom n segs).map (initFrame ctx s0) =
        (List.enumFrom n segs').map (initFrame ctx s0') by
    intro segs segs' h
    exact aux 0 h
  intro n segs segs' h
  induction h generalizing n with
  | nil => rfl
  | cons hab htl ih =>
    simp only [List.enumFrom, List.map]
    rw [initFrame_congr h0 hab n, ih (n + 1)]

theorem hypocentersOf_congr {ctx : GenCtx} :
    ∀ {segs segs' : List Segment}, List.Forall₂ UsedEq segs segs' →
      hypocentersOf ctx segs = hypocentersOf ctx segs' := by
  intro segs segs' h
  induction h with
  | nil => rfl
  | cons hab htl ih =>
    simp only [hypocentersOf, List.map] at ih ⊢
    rw [hab.2.2.2.2.2.2.2, ih]

theorem applyConn_congr {ctx : GenCtx} {segs segs' : List Segment}
    (h : List.Forall₂ UsedEq segs segs') (refs : List (Option Frame))
    (c : Connection) :
    applyConn ctx segs refs c = applyConn ctx segs' refs c := by
  simp only [applyConn]
  rcases forall₂_getElem? h (c.segment1 - 1) with ⟨hn, hn'⟩ | ⟨a, b, ha, hb, hab⟩
  · simp only [hn, hn']
  · obtain ⟨hstrike, hdip, _⟩ := hab
    simp only [ha, hb, hstrike, hdip]

theorem resolveConns_congr {ctx : GenCtx} {segs segs' : List Segment}
    (h : List.Forall₂ UsedEq segs segs') :
    ∀ (cs : List Connection) (refs : List (Option Frame)),
      resolveConns ctx segs cs refs = resolveConns ctx segs' cs refs := by
  intro cs
  induction cs with
  | nil => intro refs; rfl
  | cons c cs ih =>
    intro refs
    simp only [resolveConns, applyConn_congr h refs c]
    rcases applyConn ctx segs' refs c with e | refs2
    · rfl
    · exact ih refs2

theorem segMatrix_congr {distazbaz : ℝ → ℝ → ℝ → ℝ → ℝ × ℝ × ℝ} {ctx : GenCtx}
    {a b : Segment} {f : Frame} {hypo : ℝ × ℝ × ℝ} (hab : UsedEq a b) :
    segMatrix distazbaz ctx a f hypo = segMatrix distazbaz ctx b f hypo := by
  obtain ⟨h1, h2, h3, h4, h5, h6, _, _⟩ := hab
  simp only [segMatrix, cellPS, cellDep, h1, h2, h3, h4, h5, h6]

theorem zip_forall₂_left {R : α → α → Prop} :
    ∀ {l l' : List α}, List.Forall₂ R l l' → ∀ (x : List γ),
      List.Forall₂ (fun t t' => R t.1 t'.1 ∧ t.2 = t'.2) (l.zip x) (l'.zip x) := by
  intro l l' h
  induction h with
  | nil => intro x; exact List.Forall₂.nil
  | cons hab htl ih =>
    intro x
    cases x with
    | nil => exact List.Forall₂.nil
    | cons y ys => exact List.Forall₂.cons ⟨hab, rfl⟩ (ih ys)

/-- C10: the spacings, rupture velocity, and derived point-source sub-grid
used for every segment's cells — including connection-derived frames — come
from `segments[0]` only: two segment lists that agree on every other field
of every segment and on `segments[0]`'s `delta_strike`, `delta_dip` and
`rupture_vel` produce identical fields, no matter how the other segments'
declared spacings and velocities differ. -/
theorem claim_c10_segment_zero_geometry (distazbaz : ℝ → ℝ → ℝ → ℝ → ℝ × ℝ × ℝ)
    (segments segments' : List Segment) (tensor_info : TensorInfo)
    (rise_time : RiseTime) (connections : List Connection)
    (hused : List.Forall₂ UsedEq segments segments')
    (hhead : ∀ s0 s0', segments.head? = some s0 → segments'.head? = some s0' →
      s0.delta_strike = s0'.delta_strike ∧ s0.delta_dip = s0'.delta_dip ∧
      s0.rupture_vel = s0'.rupture_vel) :
    point_sources_param distazbaz segments tensor_info rise_time connections =
      point_sources_param distazbaz segments' tensor_info rise_time connections := by
  cases hused with
  | nil => rfl
  | @cons s0 s0' tl tl' h0 htl =>
    obtain ⟨hds, hdd, hrv⟩ := hhead s0 s0' rfl rfl
    have hctx : mkCtx s0 tensor_info rise_time = mkCtx s0' tensor_info rise_time := by
      simp only [mkCtx, hds, hdd, hrv]
    have hused' : List.Forall₂ UsedEq (s0 :: tl) (s0' :: tl') :=
      List.Forall₂.cons h0 htl
    simp only [point_sources_param]
    rw [hctx]
    rw [show resolveConns (mkCtx s0' tensor_info rise_time) (s0 :: tl) connections
        (initFrames (mkCtx s0' tensor_info rise_time) s0 (s0 :: tl)) =
        resolveConns (mkCtx s0' tensor_info rise_time) (s0' :: tl') connections
        (initFrames (mkCtx s0' tensor_info rise_time) s0' (s0' :: tl')) from by
      rw [initFrames_congr h0 hused']
      exact resolveConns_congr hused' connections _]
    rcases resolveConns (mkCtx s0' tensor_info rise_time) (s0' :: tl') connections
      (initFrames (mkCtx s0' tensor_info rise_time) s0' (s0' :: tl')) with e | refs2
    · rfl
    · rw [hypocentersOf_congr hused']
      refine mapE_congr (zip_forall₂_left hused' _) ?_
      rintro t t' ⟨hu, he⟩
      rw [← he]
      rcases h21 : t.2.1 with _ | f
      · rfl
      · exact segMatrix_congr hu

/-- Witness for C10 at a concrete input: two 2-segment lists whose second
segments declare different `delta_strike`/`delta_dip`/`rupture_vel`
(7, 8, 9 versus 99, 77, 55) produce identical point-source fields. -/
theorem claim_c10_segment_zero_geometry_witness :
    point_sources_param (fun _ _ _ _ => (0, 0, 0))
      [⟨0, 90, 1, 1, 100, 1, 1, 1, 1, 0, none⟩,
        ⟨10, 45, 7, 8, 9, 2, 3, 1, 1, 0, some (1, 2, 3)⟩]
      ⟨0, 100, 0, 0, 0, 0, 0, 0, 0, 0, 0⟩ ⟨1, 1, 3⟩ [] =
    point_sources_param (fun _ _ _ _ => (0, 0, 0))
      [⟨0, 90, 1, 1, 100, 1, 1, 1, 1, 0, none⟩,
        ⟨10, 45, 99, 77, 55, 2, 3, 1, 1, 0, some (1, 2, 3)⟩]
      ⟨0, 100, 0, 0, 0, 0, 0, 0, 0, 0, 0⟩ ⟨1, 1, 3⟩ [] := by
  apply claim_c10_segment_zero_geometry
  · exact List.Forall₂.cons ⟨rfl, rfl, rfl, rfl, rfl, rfl, rfl, rfl⟩
      (List.Forall₂.cons ⟨rfl, rfl, rfl, rfl, rfl, rfl, rfl, rfl⟩ List.Forall₂.nil)
  · intro s0 s0' h h'
    simp only [List.head?_cons, Option.some.injEq] at h h'
    subst h
    subst h'
    exact ⟨rfl, rfl, rfl⟩

end Theorems

end FaultPlane
